import Mathlib

/-!
Verification development for the Chef Casper's ghost-kitchen management
repository.  The Python interface stub declares the simulation data model
and the two public entry points (`load_simulation_setup`, `run_simulation`);
the dashboard (`ui/src/App.tsx`) and the catalog frontend
(`frontend/src`, `BrandsPage`) are embedded from their sources.  The
simulation engine itself ships outside the provided sources, so its tick
loop, scheduler and validation are modelled from the specification where
indicated.
-/

namespace Caspers

/-- Parameter list of the public entry point `run_simulation` exactly as
declared in the Python interface stub: name and declared type of each
parameter, in order. -/
def run_simulation_parameters : List (String × String) :=
  [("setup", "SimulationSetup"),
   ("duration", "int"),
   ("output_location", "str"),
   ("routing_location", "str"),
   ("dry_run", "bool")]

/-- Field list of the `SimulationSetup` class exactly as declared in the
Python interface stub: property name and declared type. -/
def simulationSetupFields : List (String × String) :=
  [("sites", "list[SiteSetup]"),
   ("brands", "list[str]")]

/-- Field list of the `Brand` class exactly as declared in the Python
interface stub. -/
def brandFields : List (String × String) :=
  [("id", "str"),
   ("name", "str"),
   ("description", "str"),
   ("category", "str"),
   ("items", "list[MenuItem]")]

/-- Site, from the interface stub: identity, name and geographic
coordinate.  The source exposes the coordinate as two floats; they are
represented as rationals here, since no claim computes with them. -/
structure Site where
  id : String
  name : String
  latitude : Rat
  longitude : Rat
deriving DecidableEq, Repr

/-- Kitchen, from the interface stub: identity and name. -/
structure Kitchen where
  id : String
  name : String
deriving DecidableEq, Repr

/-- Station, from the interface stub: identity, name and station type.
The stub exposes no concurrency capacity; the specification assumes a
configurable integer capacity with minimum 1, so the field `capacity` is
modelled from the spec. -/
structure Station where
  id : String
  name : String
  station_type : String
  capacity : Nat
deriving DecidableEq, Repr

/-- KitchenSetup, from the interface stub: optional kitchen info plus the
list of stations in the kitchen. -/
structure KitchenSetup where
  info : Option Kitchen
  stations : List Station
deriving DecidableEq, Repr

/-- SiteSetup, from the interface stub: optional site info plus the list
of kitchens in the site. -/
structure SiteSetup where
  info : Option Site
  kitchens : List KitchenSetup
deriving DecidableEq, Repr

/-- Ingredient, from the interface stub. -/
structure Ingredient where
  id : String
  name : String
  description : String
  price : Rat
  image_url : Option String
deriving DecidableEq, Repr

/-- IngredientQuantity, from the interface stub: a reference to an
ingredient together with a quantity string. -/
structure IngredientQuantity where
  ingredient_ref : String
  quantity : String
deriving DecidableEq, Repr

/-- Instruction, from the interface stub: step name, description,
required station type and expected duration in time units. -/
structure Instruction where
  step : String
  description : String
  required_station : String
  expected_duration : Nat
deriving DecidableEq, Repr

/-- MenuItem, from the interface stub. -/
structure MenuItem where
  id : String
  name : String
  description : String
  price : Rat
  image_url : Option String
  ingredients : List IngredientQuantity
  instructions : List Instruction
deriving DecidableEq, Repr

/-- Brand, from the interface stub: identity, name, description, category
and list of menu items. -/
structure Brand where
  id : String
  name : String
  description : String
  category : String
  items : List MenuItem
deriving DecidableEq, Repr

/-- SimulationSetup, exactly as declared in the interface stub: the list
of sites and the list of brands, where the brands are exposed as plain
strings (`list[str]`), not as `Brand` records. -/
structure SimulationSetup where
  sites : List SiteSetup
  brands : List String
deriving DecidableEq, Repr

/-- SimulationEvent, from `ui/src/types/simulation.ts`; the `Date`
timestamp is represented as epoch milliseconds and the free-form
`details` record as a key/value list. -/
structure SimulationEvent where
  id : String
  type : String
  timestamp : Nat
  message : String
  details : Option (List (String × Nat))
deriving DecidableEq, Repr

/-- Per-interval event-list update of the dashboard, from
`ui/src/App.tsx`: `setEvents((prev) => [...prev, newEvent].slice(-100))`.
JavaScript `slice(-100)` keeps the last `min(length, 100)` elements,
which is `drop (length - 100)` with truncated subtraction. -/
def appendEventCapped (prev : List SimulationEvent) (e : SimulationEvent) :
    List SimulationEvent :=
  let next := prev ++ [e]
  next.drop (next.length - 100)

/-- Kitchen row as consumed by `frontend/src/pages/BrandsPage.js`:
identity, name, owning vendor, location, and the ids of brands associated
with the kitchen (used by the fallback lookup). -/
structure KitchenRow where
  id : Nat
  name : String
  vendor_id : Nat
  location_id : Nat
  associated_brands : List Nat
deriving DecidableEq, Repr

/-- Brand row as consumed by `BrandsPage.js`: identity, name, owning
vendor, and — when the API supplied it — the list of kitchens currently
associated with the brand. -/
structure BrandRow where
  id : Nat
  name : String
  vendor_id : Nat
  associated_kitchens : Option (List KitchenRow)
deriving DecidableEq, Repr

/-- Function `getBrandKitchens` from `BrandsPage.js`: use the `associated_kitchens`
property from the API response when available, otherwise fall back to
filtering the kitchens by their `associated_brands`. -/
def getBrandKitchens (kitchens : List KitchenRow) (brand : BrandRow) :
    List KitchenRow :=
  match brand.associated_kitchens with
  | some ks => ks
  | none => kitchens.filter (fun k => brand.id ∈ k.associated_brands)

/-- The kitchens offered in the brand-kitchen association modal of
`BrandsPage.js`: `kitchens.filter(k => k.vendor_id ===
selectedBrandForKitchens.vendor_id)`. -/
def offeredKitchens (kitchens : List KitchenRow) (brand : BrandRow) :
    List KitchenRow :=
  kitchens.filter (fun k => k.vendor_id == brand.vendor_id)

/-- One checkbox toggle in the association modal: checking appends the
kitchen id to the selection list, unchecking removes it. -/
def applyToggle (sel : List Nat) (kid : Nat) (checked : Bool) : List Nat :=
  if checked then sel ++ [kid] else sel.filter (fun i => i ≠ kid)

/-- A full modal session from `openBrandKitchenModal` to submission: the
selection starts as the ids of the brand's current kitchens, each user
action toggles a checkbox, and checkboxes exist only for the offered
(same-vendor) kitchens.  The returned list is the `kitchen_ids` payload
submitted by `handleAssociateBrandWithKitchens` via
`associateBrandWithKitchens`. -/
def modalSubmission (kitchens : List KitchenRow) (brand : BrandRow)
    (actions : List (Nat × Bool)) : List Nat :=
  let offered := offeredKitchens kitchens brand
  let init := (getBrandKitchens kitchens brand).map (fun k => k.id)
  actions.foldl
    (fun sel act =>
      if offered.any (fun k => k.id == act.1) then applyToggle sel act.1 act.2
      else sel)
    init

/-- Modelled from the spec: the engine's Event record — an immutable
`{type, tick, subject id, payload}` appended to the event log.  The Rust
simulation engine is not part of the provided sources; only its Python
interface stub is. -/
structure Event where
  type : String
  tick : Nat
  subject : Nat
  payload : String
deriving DecidableEq, Repr

/-- Modelled from the spec: Order lifecycle states
`Placed → Queued → InPreparation(i) → Ready → OutForDelivery → Delivered
→ FeedbackReceived → Closed`, with `Cancelled` terminal. -/
inductive OrderState where
  | placed
  | queued
  | inPreparation (step : Nat)
  | ready
  | outForDelivery
  | delivered
  | feedbackReceived
  | closed
  | cancelled
deriving DecidableEq, Repr

/-- Modelled from the spec: a live Order — identity, target menu item,
assigned kitchen, lifecycle state, creation tick, grant tick of the
currently executing instruction, the station slot it occupies, the
normalized kitchen-to-customer distance, and the delivery ETA once
dispatched. -/
structure OrderRec where
  id : Nat
  creationTick : Nat
  kitchenId : String
  item : MenuItem
  distance : Nat
  state : OrderState
  grantTick : Option Nat
  currentStation : Option String
  eta : Option Nat
deriving DecidableEq, Repr

/-- Modelled from the spec: simulation parameters consumed by the engine,
named after the dashboard's `SimulationParameters` groups
(`ui/src/types/simulation.ts`): customer arrival rate, driver
availability and feedback response rate as percentages, the snapshot
interval, and the delivery parameters `baseTime`, `trafficVariation`,
`weatherImpact`. -/
structure SimParams where
  arrivalRate : Nat
  driverAvailability : Nat
  responseRate : Nat
  snapshotInterval : Nat
  baseTime : Nat
  trafficVariation : Nat
  weatherImpact : Nat
deriving DecidableEq, Repr

/-- Modelled from the spec: the engine's view of a loaded configuration.
The interface stub's `SimulationSetup` exposes brands only as strings, so
the full Brand records, the ingredient catalog and the Kitchen-Brand
association table that §3 and §4.1 of the spec describe are carried
alongside the setup. -/
structure WorldConfig where
  setup : SimulationSetup
  brandCatalog : List Brand
  ingredients : List Ingredient
  kitchenBrands : List (String × String)
deriving DecidableEq, Repr

/-- All kitchen setups of a simulation setup, in declaration order. -/
def kitchenSetups (setup : SimulationSetup) : List KitchenSetup :=
  setup.sites.flatMap (fun ss => ss.kitchens)

/-- All stations of the setup, each paired with the id of its kitchen.
Kitchens with no `info` record are unreachable and contribute nothing. -/
def stationsOf (setup : SimulationSetup) : List (String × Station) :=
  (kitchenSetups setup).flatMap (fun ks =>
    match ks.info with
    | some k => ks.stations.map (fun st => (k.id, st))
    | none => [])

/-- Stations belonging to one kitchen. -/
def stationsOfKitchen (setup : SimulationSetup) (kid : String) : List Station :=
  (stationsOf setup).filterMap (fun p => if p.1 == kid then some p.2 else none)

/-- Number of orders currently occupying a slot of the given station:
the concurrently-executing instruction count of that station. -/
def occupiedCount (orders : List OrderRec) (sid : String) : Nat :=
  orders.countP (fun o => o.currentStation == some sid)

/-- Modelled from the spec: the process-wide RngRegistry.  All randomness
is a pure function of the run seed, an agent id, a purpose tag and the
tick, giving per-agent, per-run seeded streams. -/
def lcg (s : Nat) : Nat := (s * 1103515245 + 12345) % 2147483648

/-- One draw from the seeded stream keyed by (agent id, purpose) at a
tick. -/
def rngDraw (seed agentId purpose tick : Nat) : Nat :=
  lcg (seed + 1000003 * agentId + 7919 * purpose + 104729 * tick)

/-- Modelled from the spec (§4.6): `distanceFactor` converts normalized
spatial distance to time units; it is monotonically non-decreasing. -/
def distanceFactor (d : Nat) : Nat := d

/-- Modelled from the spec (§4.6): traffic noise bounded by the
`trafficVariation` parameter, drawn from the seeded stream. -/
def trafficNoise (seed oid tick variation : Nat) : Nat :=
  rngDraw seed oid 4 tick % (variation + 1)

/-- Modelled from the spec (§4.6): weather noise bounded by the
`weatherImpact` parameter, drawn from the seeded stream. -/
def weatherNoise (seed oid tick impact : Nat) : Nat :=
  rngDraw seed oid 5 tick % (impact + 1)

/-- Modelled from the spec (§4.6): the Routing Engine's delivery-time
estimate `baseTime + distanceFactor(distance) + trafficNoise +
weatherNoise`. -/
def estimateDeliveryTime (p : SimParams) (seed oid tick dist : Nat) : Nat :=
  p.baseTime + distanceFactor dist
    + trafficNoise seed oid tick p.trafficVariation
    + weatherNoise seed oid tick p.weatherImpact

/-- Modelled from the spec (§7): the pre-run `ConfigurationError`
taxonomy, naming the missing reference where one exists. -/
inductive ConfigurationError where
  | missingStationType (brandId itemId stationType : String)
  | unresolvedIngredient (brandId itemId ingredientRef : String)
  | invalidCapacity (kitchenId stationId : String)
  | duplicateStationId
deriving DecidableEq, Repr

/-- Kitchens associated with a brand, from the association table. -/
def brandKitchenIds (cfg : WorldConfig) (brandId : String) : List String :=
  cfg.kitchenBrands.filterMap (fun p => if p.2 == brandId then some p.1 else none)

/-- Station types available in some kitchen reachable by the brand. -/
def reachableStationTypes (cfg : WorldConfig) (brandId : String) : List String :=
  (stationsOf cfg.setup).filterMap (fun p =>
    if (brandKitchenIds cfg brandId).contains p.1 then some p.2.station_type
    else none)

/-- Modelled from the spec (§4.1): first instruction whose required
station type exists in no kitchen reachable by its brand. -/
def stationTypeViolation (cfg : WorldConfig) : Option ConfigurationError :=
  cfg.brandCatalog.findSome? (fun b =>
    b.items.findSome? (fun it =>
      it.instructions.findSome? (fun ins =>
        if ins.required_station ∈ reachableStationTypes cfg b.id then none
        else some (.missingStationType b.id it.id ins.required_station))))

/-- Modelled from the spec (§4.1): first menu-item ingredient reference
that does not resolve to a known ingredient. -/
def ingredientViolation (cfg : WorldConfig) : Option ConfigurationError :=
  cfg.brandCatalog.findSome? (fun b =>
    b.items.findSome? (fun it =>
      it.ingredients.findSome? (fun q =>
        if q.ingredient_ref ∈ cfg.ingredients.map (fun ing => ing.id) then none
        else some (.unresolvedIngredient b.id it.id q.ingredient_ref))))

/-- Modelled from the spec (§3): station capacities have minimum 1. -/
def capacityViolation (cfg : WorldConfig) : Option ConfigurationError :=
  (stationsOf cfg.setup).findSome? (fun p =>
    if p.2.capacity = 0 then some (.invalidCapacity p.1 p.2.id) else none)

/-- Modelled from the spec (§3): station identities are unique. -/
def duplicateViolation (cfg : WorldConfig) : Option ConfigurationError :=
  if ((stationsOf cfg.setup).map (fun p => p.2.id)).Nodup then none
  else some .duplicateStationId

/-- Modelled from the spec (§4.1): referential-integrity validation run
before any simulation tick; fails with the first `ConfigurationError`
found, reference errors first. -/
def validateConfig (cfg : WorldConfig) : Except ConfigurationError Unit :=
  match stationTypeViolation cfg with
  | some e => .error e
  | none =>
    match ingredientViolation cfg with
    | some e => .error e
    | none =>
      match capacityViolation cfg with
      | some e => .error e
      | none =>
        match duplicateViolation cfg with
        | some e => .error e
        | none => .ok ()

/-- Modelled from the spec (§4.3, §4.4): the instruction step an order is
waiting to start at tick `T`, if any.  `Placed → Queued` is immediate
(the kitchen is resolved at creation), so both states request step 0; an
order in `InPreparation(i)` whose slot was released at the step
transition requests step `i`; orders do not act before their creation
tick. -/
def requestedStep (T : Nat) (o : OrderRec) : Option Nat :=
  if o.creationTick ≤ T then
    match o.state, o.grantTick with
    | .placed, none => some 0
    | .queued, none => some 0
    | .inPreparation i, none => some i
    | _, _ => none
  else none

/-- Replace the first element with the given order id, leaving the rest
of the list unchanged. -/
def updateFirst (oid : Nat) (f : OrderRec → OrderRec) :
    List OrderRec → List OrderRec
  | [] => []
  | o :: rest =>
    if o.id == oid then f o :: rest else o :: updateFirst oid f rest

/-- First station of the kitchen with the required type and a free slot:
a request is granted iff such a station exists (§4.3). -/
def findFreeStation (setup : SimulationSetup) (orders : List OrderRec)
    (kid stype : String) : Option Station :=
  (stationsOfKitchen setup kid).find? (fun st =>
    st.station_type == stype
      && Nat.blt (occupiedCount orders st.id) st.capacity)

/-- Modelled from the spec (§4.3): evaluate the queued request of one
order.  A grant occupies a slot and moves the order to
`InPreparation(step)` with the grant tick recorded; a request past the
end of the recipe completes the order to `Ready`; otherwise the order
stays queued and is re-evaluated next tick. -/
def grantOne (setup : SimulationSetup) (T : Nat) (orders : List OrderRec)
    (oid : Nat) : List OrderRec × List Event :=
  match orders.find? (fun o => o.id == oid) with
  | none => (orders, [])
  | some o =>
    match requestedStep T o with
    | none => (orders, [])
    | some i =>
      match o.item.instructions.get? i with
      | none =>
        (updateFirst oid
          (fun o2 =>
            { o2 with state := .ready, grantTick := none,
                      currentStation := none }) orders,
         [{ type := "order.ready", tick := T, subject := oid, payload := "" }])
      | some ins =>
        match findFreeStation setup orders o.kitchenId ins.required_station with
        | none => (orders, [])
        | some st =>
          (updateFirst oid
            (fun o2 =>
              { o2 with state := .inPreparation i, grantTick := some T,
                        currentStation := some st.id }) orders,
           [{ type := "station.granted", tick := T, subject := oid,
              payload := ins.step }])

/-- FIFO admission order (§4.3): by Order creation tick, ties broken by
Order identity. -/
def reqLe (a b : OrderRec) : Bool :=
  Nat.blt a.creationTick b.creationTick
    || (a.creationTick == b.creationTick && Nat.ble a.id b.id)

/-- Insertion step of the FIFO sort. -/
def insertFifo (x : OrderRec) : List OrderRec → List OrderRec
  | [] => [x]
  | y :: ys => if reqLe x y then x :: y :: ys else y :: insertFifo x ys

/-- Sort a request queue into FIFO admission order. -/
def sortFifo : List OrderRec → List OrderRec
  | [] => []
  | x :: xs => insertFifo x (sortFifo xs)

/-- Evaluate a queue of requests in order, threading the order list and
accumulating grant events. -/
def grantLoop (setup : SimulationSetup) (T : Nat) (reqs : List OrderRec)
    (acc : List OrderRec × List Event) : List OrderRec × List Event :=
  reqs.foldl
    (fun acc o =>
      let r := grantOne setup T acc.1 o.id
      (r.1, acc.2 ++ r.2))
    acc

/-- Modelled from the spec (§4.3): the Station Scheduler pass of a tick.
All queued requests are taken in FIFO order (creation tick, then order
id) and each is granted iff its target station still has a free slot
when its turn comes. -/
def grantPhase (setup : SimulationSetup) (T : Nat) (orders : List OrderRec) :
    List OrderRec × List Event :=
  grantLoop setup T
    (sortFifo (orders.filter (fun o => (requestedStep T o).isSome)))
    (orders, [])

/-- Modelled from the spec (§4.4): completion step of one order.  When
the executing instruction's elapsed ticks since grant reach its expected
duration, the slot is released at this exact transition and the order
moves to `InPreparation(i+1)` — or to `Ready` after the last
instruction. -/
def completeOne (T : Nat) (o : OrderRec) : OrderRec × List Event :=
  match o.state, o.grantTick with
  | .inPreparation i, some g =>
    match o.item.instructions.get? i with
    | none =>
      ({ o with state := .ready, grantTick := none, currentStation := none },
       [{ type := "order.ready", tick := T, subject := o.id, payload := "" }])
    | some ins =>
      if g + ins.expected_duration ≤ T then
        if i + 1 < o.item.instructions.length then
          ({ o with state := .inPreparation (i + 1), grantTick := none,
                    currentStation := none },
           [{ type := "step.completed", tick := T, subject := o.id,
              payload := ins.step }])
        else
          ({ o with state := .ready, grantTick := none,
                    currentStation := none },
           [{ type := "step.completed", tick := T, subject := o.id,
              payload := ins.step },
            { type := "order.ready", tick := T, subject := o.id,
              payload := "" }])
      else (o, [])
  | _, _ => (o, [])

/-- Completion pass over all orders. -/
def completePhase (T : Nat) (orders : List OrderRec) :
    List OrderRec × List Event :=
  (orders.map (fun o => (completeOne T o).1),
   orders.flatMap (fun o => (completeOne T o).2))

/-- Modelled from the spec (§4.4): delivery-side step of one order.
`Ready → OutForDelivery` when a driver becomes available (probabilistic
on the seeded stream); `OutForDelivery → Delivered` once the Routing
Engine's ETA elapses; `Delivered → FeedbackReceived` gated by the
feedback response rate; then `Closed`. -/
def deliverOne (p : SimParams) (seed T : Nat) (o : OrderRec) :
    OrderRec × List Event :=
  match o.state with
  | .ready =>
    if rngDraw seed o.id 6 T % 100 < p.driverAvailability then
      ({ o with state := .outForDelivery,
                eta := some (T + estimateDeliveryTime p seed o.id T o.distance) },
       [{ type := "delivery.started", tick := T, subject := o.id,
          payload := "" }])
    else (o, [])
  | .outForDelivery =>
    match o.eta with
    | some e =>
      if e ≤ T then
        ({ o with state := .delivered },
         [{ type := "delivery.completed", tick := T, subject := o.id,
            payload := "" }])
      else (o, [])
    | none => (o, [])
  | .delivered =>
    if rngDraw seed o.id 7 T % 100 < p.responseRate then
      ({ o with state := .feedbackReceived },
       [{ type := "feedback.received", tick := T, subject := o.id,
          payload := "" }])
    else (o, [])
  | .feedbackReceived =>
    ({ o with state := .closed },
     [{ type := "order.closed", tick := T, subject := o.id, payload := "" }])
  | _ => (o, [])

/-- Delivery pass over all orders. -/
def deliveryPhase (p : SimParams) (seed T : Nat) (orders : List OrderRec) :
    List OrderRec × List Event :=
  (orders.map (fun o => (deliverOne p seed T o).1),
   orders.flatMap (fun o => (deliverOne p seed T o).2))

/-- Pick an element by a seeded draw (weighted choice abstracted to a
uniform pick over the list). -/
def pick {α : Type} (l : List α) (draw : Nat) : Option α :=
  if l.length = 0 then none else l.get? (draw % l.length)

/-- Modelled from the spec (§4.5): number of customer arrivals this tick,
drawn from the rate-parameterized stream; a rate of 0 disables
arrivals. -/
def spawnCount (p : SimParams) (seed T : Nat) : Nat :=
  if p.arrivalRate = 0 then 0 else rngDraw seed 0 0 T % (p.arrivalRate + 1)

/-- Modelled from the spec (§4.5): a new order created by a customer
arrival — a brand and menu item chosen by seeded weighted choice and the
order assigned to the first kitchen associated with the brand (the
Spatial Index's nearest-eligible-kitchen query is abstracted to
association order, which no claim exercises). -/
def mkOrder (cfg : WorldConfig) (seed T oid : Nat) : Option OrderRec :=
  match pick cfg.brandCatalog (rngDraw seed oid 1 T) with
  | none => none
  | some b =>
    match pick b.items (rngDraw seed oid 2 T) with
    | none => none
    | some it =>
      match (brandKitchenIds cfg b.id).head? with
      | none => none
      | some kid =>
        some { id := oid, creationTick := T, kitchenId := kid, item := it,
               distance := rngDraw seed oid 3 T % 100,
               state := .queued, grantTick := none, currentStation := none,
               eta := none }

/-- Modelled from the spec (§4.5): the Agent Decision Engine pass —
spawn this tick's arrivals with fresh order ids. -/
def spawnPhase (cfg : WorldConfig) (p : SimParams) (seed T nextId : Nat) :
    List OrderRec × Nat × List Event :=
  let n := spawnCount p seed T
  let created := (List.range n).filterMap (fun k => mkOrder cfg seed T (nextId + k))
  (created, nextId + n,
   created.map (fun o =>
     { type := "order.created", tick := T, subject := o.id, payload := "" }))

/-- Modelled from the spec: the full mutable World State of a run —
the immutable configuration, parameters, seed, clock, order id counter,
live orders, event log and snapshot writes. -/
structure Sim where
  cfg : WorldConfig
  params : SimParams
  seed : Nat
  outputLocation : String
  tick : Nat
  nextId : Nat
  orders : List OrderRec
  events : List Event
  writes : List (String × Nat)
deriving DecidableEq, Repr

/-- Snapshot Writer (§2): write a columnar snapshot to the output
location at the configured interval. -/
def snapWrites (s : Sim) (T : Nat) : List (String × Nat) :=
  if s.params.snapshotInterval = 0 then s.writes
  else if T % s.params.snapshotInterval = 0 then
    s.writes ++ [(s.outputLocation, T)]
  else s.writes

/-- Modelled from the spec (§5): one tick, with the fixed component
order Agent Decision Engine → completion of executing instructions
(releasing slots) → Station Scheduler grants → delivery/routing →
snapshot write → clock advance. -/
def stepSim (s : Sim) : Sim :=
  let T := s.tick
  let sp := spawnPhase s.cfg s.params s.seed T s.nextId
  let orders1 := s.orders ++ sp.1
  let c := completePhase T orders1
  let g := grantPhase s.cfg.setup T c.1
  let d := deliveryPhase s.params s.seed T g.1
  { s with
    tick := T + 1,
    nextId := sp.2.1,
    orders := d.1,
    events := s.events ++ sp.2.2 ++ c.2 ++ g.2 ++ d.2,
    writes := snapWrites s T }

/-- Run the clock for the given number of ticks. -/
def runSteps : Nat → Sim → Sim
  | 0, s => s
  | n + 1, s => runSteps n (stepSim s)

/-- Fresh World State at tick 0. -/
def initSim (cfg : WorldConfig) (p : SimParams) (seed : Nat)
    (outputLocation : String) : Sim :=
  { cfg := cfg, params := p, seed := seed, outputLocation := outputLocation,
    tick := 0, nextId := 0, orders := [], events := [], writes := [] }

/-- Observable outcome of a run: final configuration (unchanged), final
tick, final orders, the event sequence and the snapshot writes. -/
structure RunResult where
  cfg : WorldConfig
  finalTick : Nat
  orders : List OrderRec
  events : List Event
  writes : List (String × Nat)
deriving DecidableEq, Repr

/-- Project the observable outcome out of a World State. -/
def resultOf (s : Sim) : RunResult :=
  { cfg := s.cfg, finalTick := s.tick, orders := s.orders,
    events := s.events, writes := s.writes }

/-- Modelled from the spec (§6): `run_simulation` — validate the
configuration before any tick; abort on a `ConfigurationError`; in
dry-run mode stop after validation with zero effects; otherwise run the
tick loop for the duration.  The declared Python entry point has exactly
the parameters of `run_simulation_parameters`; the seed is an explicit
extra argument of the model, since the spec makes reproducibility
seed-driven while the stub exposes no seed. -/
def runSimulationModel (cfg : WorldConfig) (p : SimParams) (duration : Nat)
    (outputLocation _routingLocation : String) (seed : Nat) (dryRun : Bool) :
    Except ConfigurationError RunResult :=
  match validateConfig cfg with
  | .error e => .error e
  | .ok _ =>
    if dryRun then .ok (resultOf (initSim cfg p seed outputLocation))
    else .ok (resultOf (runSteps duration (initSim cfg p seed outputLocation)))

section ClaimC9

/-- C9: after every per-interval update of the dashboard's event stream,
the events list has length at most 100, it is a suffix of the previous
list extended by the new event (so it consists of the latest events in
arrival order), and its length is exactly the smaller of the grown length
and 100. -/
theorem dashboard_event_retention (prev : List SimulationEvent)
    (e : SimulationEvent) :
    (appendEventCapped prev e).length ≤ 100 ∧
    List.IsSuffix (appendEventCapped prev e) (prev ++ [e]) ∧
    (appendEventCapped prev e).length = min (prev.length + 1) 100 := by
  refine ⟨?_, ?_, ?_⟩
  · simp only [appendEventCapped, List.length_drop, List.length_append,
      List.length_cons, List.length_nil]
    omega
  · exact List.drop_suffix _ _
  · simp only [appendEventCapped, List.length_drop, List.length_append,
      List.length_cons, List.length_nil]
    omega

end ClaimC9

section ClaimC10

/-- Kitchen of a different vendor that is already associated with the
brand below. -/
def staleKitchen : KitchenRow :=
  { id := 7, name := "north", vendor_id := 2, location_id := 1,
    associated_brands := [1] }

/-- Kitchen owned by the brand's own vendor. -/
def ownKitchen : KitchenRow :=
  { id := 3, name := "south", vendor_id := 1, location_id := 1,
    associated_brands := [] }

/-- Kitchen table for the association scenario. -/
def exampleKitchens : List KitchenRow := [staleKitchen, ownKitchen]

/-- Brand of vendor 1 whose current associations, as returned by the
API, still contain the vendor-2 kitchen. -/
def exampleBrand : BrandRow :=
  { id := 1, name := "tacos", vendor_id := 1,
    associated_kitchens := some [staleKitchen] }

/-- C10 counterexample: the association modal pre-selects all currently
associated kitchens, and the submission sends them even when their
vendor differs from the brand's vendor.  Submitting without touching any
checkbox pairs brand 1 (vendor 1) with kitchen 7, which belongs to
vendor 2 and is not even among the offered kitchens. -/
theorem brand_kitchen_association_counterexample :
    modalSubmission exampleKitchens exampleBrand [] = [7] ∧
    (∀ k ∈ offeredKitchens exampleKitchens exampleBrand, k.id ≠ 7) ∧
    staleKitchen ∈ exampleKitchens ∧
    staleKitchen.id = 7 ∧
    staleKitchen.vendor_id ≠ exampleBrand.vendor_id := by
  decide

/-- C10 amended: the modal offers exactly the kitchens whose vendor
matches the selected brand's vendor, and every id in the submitted
association list is either one of the brand's pre-existing kitchen
associations (which may belong to another vendor) or the id of an
offered, same-vendor kitchen. -/
theorem brand_kitchen_association_amended (kitchens : List KitchenRow)
    (brand : BrandRow) (actions : List (Nat × Bool)) :
    (∀ k, k ∈ offeredKitchens kitchens brand ↔
        k ∈ kitchens ∧ k.vendor_id = brand.vendor_id) ∧
    (∀ kid ∈ modalSubmission kitchens brand actions,
      kid ∈ (getBrandKitchens kitchens brand).map (fun k => k.id) ∨
        ∃ k ∈ kitchens, k.id = kid ∧ k.vendor_id = brand.vendor_id) := by
  constructor
  · intro k
    simp [offeredKitchens, List.mem_filter]
  · intro kid hkid
    have main :
        ∀ (acts : List (Nat × Bool)) (sel : List Nat),
          (∀ i ∈ sel,
            i ∈ (getBrandKitchens kitchens brand).map (fun k => k.id) ∨
              ∃ k ∈ kitchens, k.id = i ∧ k.vendor_id = brand.vendor_id) →
          ∀ i ∈ acts.foldl
              (fun sel act =>
                if (offeredKitchens kitchens brand).any
                    (fun k => k.id == act.1) then
                  applyToggle sel act.1 act.2
                else sel) sel,
            i ∈ (getBrandKitchens kitchens brand).map (fun k => k.id) ∨
              ∃ k ∈ kitchens, k.id = i ∧ k.vendor_id = brand.vendor_id := by
      intro acts
      induction acts with
      | nil => intro sel hsel i hi; exact hsel i hi
      | cons act rest ih =>
        intro sel hsel i hi
        simp only [List.foldl_cons] at hi
        by_cases hoff :
            ((offeredKitchens kitchens brand).any
              (fun k => k.id == act.1)) = true
        · rw [if_pos hoff] at hi
          refine ih _ ?_ i hi
          intro j hj
          rcases act with ⟨kid2, checked⟩
          rcases checked with _ | _
          · simp only [applyToggle, Bool.false_eq_true, if_false,
              List.mem_filter] at hj
            exact hsel j hj.1
          · simp only [applyToggle, if_true, List.mem_append,
              List.mem_singleton] at hj
            rcases hj with hj | hj
            · exact hsel j hj
            · subst hj
              rw [List.any_eq_true] at hoff
              rcases hoff with ⟨k, hk, hkeq⟩
              simp only [offeredKitchens, List.mem_filter] at hk
              right
              exact ⟨k, hk.1, by simpa using hkeq,
                by simpa using hk.2⟩
        · rw [if_neg hoff] at hi
          exact ih _ hsel i hi
    refine main actions _ ?_ kid hkid
    intro i hi
    exact Or.inl hi

/-- Concrete application of the amended association theorem: toggling the
same-vendor kitchen 3 yields a submission, and id 3 indeed comes from an
offered same-vendor kitchen. -/
theorem brand_kitchen_association_amended_witness :
    3 ∈ modalSubmission exampleKitchens exampleBrand [(3, true)] ∧
    (3 ∈ (getBrandKitchens exampleKitchens exampleBrand).map
        (fun k => k.id) ∨
      ∃ k ∈ exampleKitchens, k.id = 3 ∧
        k.vendor_id = exampleBrand.vendor_id) :=
  ⟨by decide,
   (brand_kitchen_association_amended exampleKitchens exampleBrand
      [(3, true)]).2 3 (by decide)⟩

end ClaimC10

section SharedExamples

/-- Station of type `"w"` with one slot. -/
def exampleStation : Station :=
  { id := "st1", name := "bench", station_type := "w", capacity := 1 }

/-- Example site. -/
def exampleSite : Site :=
  { id := "s1", name := "hub", latitude := 0, longitude := 0 }

/-- Example kitchen. -/
def exampleKitchen : Kitchen := { id := "k1", name := "main" }

/-- Three-step recipe with expected durations 2, 10 and 2 ticks, all on
station type `"w"`. -/
def exampleInstructions : List Instruction :=
  [{ step := "prep", description := "", required_station := "w",
     expected_duration := 2 },
   { step := "cook", description := "", required_station := "w",
     expected_duration := 10 },
   { step := "assemble", description := "", required_station := "w",
     expected_duration := 2 }]

/-- Menu item carrying the three-step recipe. -/
def exampleItem : MenuItem :=
  { id := "i1", name := "burger", description := "", price := 10,
    image_url := none, ingredients := [], instructions := exampleInstructions }

/-- Brand record owning the example item. -/
def exampleBrandRecord : Brand :=
  { id := "b1", name := "burgers", description := "", category := "fast",
    items := [exampleItem] }

/-- One site, one kitchen, one station of capacity 1. -/
def exampleSetup : SimulationSetup :=
  { sites := [{ info := some exampleSite,
                kitchens := [{ info := some exampleKitchen,
                               stations := [exampleStation] }] }],
    brands := ["b1"] }

/-- Valid engine configuration: the brand is associated with the kitchen
and every required station type is reachable. -/
def exampleCfg : WorldConfig :=
  { setup := exampleSetup, brandCatalog := [exampleBrandRecord],
    ingredients := [], kitchenBrands := [("k1", "b1")] }

/-- Parameters with no stochastic activity: no arrivals, no drivers, no
feedback, no snapshots. -/
def quietParams : SimParams :=
  { arrivalRate := 0, driverAvailability := 0, responseRate := 0,
    snapshotInterval := 0, baseTime := 25, trafficVariation := 30,
    weatherImpact := 20 }

/-- One tick never touches the configuration part of the World State. -/
theorem stepSim_cfg (s : Sim) : (stepSim s).cfg = s.cfg := rfl

/-- The whole run never touches the configuration part of the World
State. -/
theorem runSteps_cfg (n : Nat) : ∀ s : Sim, (runSteps n s).cfg = s.cfg := by
  induction n with
  | zero => intro s; rfl
  | succ n ih =>
    intro s
    calc (runSteps (n + 1) s).cfg = (runSteps n (stepSim s)).cfg := rfl
    _ = (stepSim s).cfg := ih (stepSim s)
    _ = s.cfg := rfl

end SharedExamples

section ClaimC1

/-- C1 counterexample: the declared public entry point `run_simulation`
takes exactly setup, duration, output location, routing location and the
dry-run flag — no seed parameter — and `SimulationSetup` carries no seed
field either, so the identical-seed reproducibility contract is not
exposed by the public entry point as the claim states. -/
theorem run_simulation_no_seed_counterexample :
    run_simulation_parameters.map Prod.fst =
      ["setup", "duration", "output_location", "routing_location",
       "dry_run"] ∧
    "seed" ∉ run_simulation_parameters.map Prod.fst ∧
    "seed" ∉ simulationSetupFields.map Prod.fst := by
  decide

/-- C1 amended: the engine modelled from the spec takes the seed as an
explicit argument, and two executions with identical configuration,
parameters, duration and seed produce identical results — in particular
identical event sequences, final orders and snapshot writes. -/
theorem run_simulation_determinism (cfg : WorldConfig) (p : SimParams)
    (duration : Nat) (outLoc routeLoc : String) (seed : Nat) (dryRun : Bool)
    (r1 r2 : Except ConfigurationError RunResult)
    (h1 : runSimulationModel cfg p duration outLoc routeLoc seed dryRun = r1)
    (h2 : runSimulationModel cfg p duration outLoc routeLoc seed dryRun = r2) :
    r1 = r2 ∧
    ∀ a b : RunResult, r1 = Except.ok a → r2 = Except.ok b →
      a.events = b.events ∧ a.orders = b.orders ∧ a.writes = b.writes := by
  subst h1
  subst h2
  refine ⟨rfl, ?_⟩
  intro a b ha hb
  rw [ha] at hb
  injection hb with h
  subst h
  exact ⟨rfl, rfl, rfl⟩

/-- Concrete application of the determinism theorem: two identical runs
of the example configuration agree. -/
theorem run_simulation_determinism_witness :
    runSimulationModel exampleCfg quietParams 3 "out" "route" 7 false =
      runSimulationModel exampleCfg quietParams 3 "out" "route" 7 false :=
  (run_simulation_determinism exampleCfg quietParams 3 "out" "route" 7 false
    _ _ rfl rfl).1

end ClaimC1

section ClaimC8

/-- C8 counterexample: in the declared interface, `SimulationSetup`
exposes its brands as `list[str]` — brand identifiers — not as `Brand`
records with identity, name, description, category and menu items. -/
theorem setup_brands_are_strings_counterexample :
    simulationSetupFields.lookup "brands" = some "list[str]" ∧
    simulationSetupFields.lookup "brands" ≠ some "list[Brand]" := by
  decide

/-- C8 amended: a loaded `SimulationSetup` is a top-level snapshot of
the sites (each with nested kitchens and stations) and a list of brand
identifier strings; full `Brand` records (identity, name, description,
category, menu items) are a separate class; and the configuration —
setup included — is never mutated during a run. -/
theorem setup_snapshot_immutable (cfg : WorldConfig) (p : SimParams)
    (duration : Nat) (outLoc routeLoc : String) (seed : Nat) (dryRun : Bool)
    (r : RunResult)
    (h : runSimulationModel cfg p duration outLoc routeLoc seed dryRun =
      Except.ok r) :
    r.cfg = cfg ∧ r.cfg.setup = cfg.setup ∧
    simulationSetupFields =
      [("sites", "list[SiteSetup]"), ("brands", "list[str]")] ∧
    brandFields =
      [("id", "str"), ("name", "str"), ("description", "str"),
       ("category", "str"), ("items", "list[MenuItem]")] := by
  have hc : r.cfg = cfg := by
    unfold runSimulationModel at h
    cases hv : validateConfig cfg with
    | error e => rw [hv] at h; cases h
    | ok u =>
      rw [hv] at h
      by_cases hd : dryRun = true
      · rw [if_pos hd] at h
        injection h with h2
        rw [← h2]
        rfl
      · rw [if_neg hd] at h
        injection h with h2
        rw [← h2]
        calc (resultOf (runSteps duration (initSim cfg p seed outLoc))).cfg
            = (runSteps duration (initSim cfg p seed outLoc)).cfg := rfl
        _ = (initSim cfg p seed outLoc).cfg := runSteps_cfg duration _
        _ = cfg := rfl
  exact ⟨hc, by rw [hc], by decide, by decide⟩

/-- Concrete application of the snapshot theorem: a dry run of the
example configuration returns it unchanged. -/
theorem setup_snapshot_immutable_witness :
    (resultOf (initSim exampleCfg quietParams 7 "out")).cfg = exampleCfg :=
  (setup_snapshot_immutable exampleCfg quietParams 3 "out" "route" 7 true
    _ (by rfl)).1

end ClaimC8

section ClaimC7

/-- C7: the Routing Engine's estimate decomposes as base time plus
distance factor plus traffic noise plus weather noise, and the distance
factor is monotone, so with everything but the spatial distance fixed a
larger distance never yields a smaller estimated delivery time. -/
theorem routing_decomposition_and_monotonicity :
    (∀ (p : SimParams) (seed oid tick dist : Nat),
      estimateDeliveryTime p seed oid tick dist =
        p.baseTime + distanceFactor dist
          + trafficNoise seed oid tick p.trafficVariation
          + weatherNoise seed oid tick p.weatherImpact) ∧
    (∀ (d d' : Nat), d ≤ d' → distanceFactor d ≤ distanceFactor d') ∧
    (∀ (p : SimParams) (seed oid tick d d' : Nat), d ≤ d' →
      estimateDeliveryTime p seed oid tick d ≤
        estimateDeliveryTime p seed oid tick d') := by
  refine ⟨fun p seed oid tick dist => rfl, fun d d' h => h, ?_⟩
  intro p seed oid tick d d' h
  unfold estimateDeliveryTime distanceFactor
  omega

/-- Concrete application of the monotonicity theorem at distances 2 and
5. -/
theorem routing_monotonicity_witness :
    estimateDeliveryTime quietParams 7 1 0 2 ≤
      estimateDeliveryTime quietParams 7 1 0 5 :=
  routing_decomposition_and_monotonicity.2.2 quietParams 7 1 0 2 5
    (by decide)

end ClaimC7

section ClaimC6

/-- C6: with a valid configuration, a dry run performs validation only —
it returns the untouched initial World State, writes no snapshots, emits
no events, creates no orders, executes no tick, and its outcome does not
depend on the requested duration. -/
theorem dry_run_zero_effect (cfg : WorldConfig) (p : SimParams)
    (d1 d2 : Nat) (outLoc routeLoc : String) (seed : Nat)
    (h : validateConfig cfg = Except.ok ()) :
    runSimulationModel cfg p d1 outLoc routeLoc seed true =
      Except.ok (resultOf (initSim cfg p seed outLoc)) ∧
    runSimulationModel cfg p d1 outLoc routeLoc seed true =
      runSimulationModel cfg p d2 outLoc routeLoc seed true ∧
    ∀ r, runSimulationModel cfg p d1 outLoc routeLoc seed true =
        Except.ok r →
      r.writes = [] ∧ r.events = [] ∧ r.orders = [] ∧ r.finalTick = 0 := by
  unfold runSimulationModel
  rw [h]
  refine ⟨rfl, rfl, ?_⟩
  intro r hr
  simp only [if_pos] at hr
  injection hr with h2
  rw [← h2]
  exact ⟨rfl, rfl, rfl, rfl⟩

/-- Concrete application of the dry-run theorem to the example
configuration. -/
theorem dry_run_zero_effect_witness :
    runSimulationModel exampleCfg quietParams 50 "out" "route" 7 true =
      Except.ok (resultOf (initSim exampleCfg quietParams 7 "out")) :=
  (dry_run_zero_effect exampleCfg quietParams 50 9 "out" "route" 7
    (by rfl)).1

end ClaimC6

section ClaimC5

/-- Some instruction's required station type exists in no kitchen
reachable by its brand. -/
def HasStationTypeViolation (cfg : WorldConfig) : Prop :=
  ∃ b ∈ cfg.brandCatalog, ∃ it ∈ b.items, ∃ ins ∈ it.instructions,
    ins.required_station ∉ reachableStationTypes cfg b.id

/-- Some menu-item ingredient reference does not resolve. -/
def HasIngredientViolation (cfg : WorldConfig) : Prop :=
  ∃ b ∈ cfg.brandCatalog, ∃ it ∈ b.items, ∃ q ∈ it.ingredients,
    q.ingredient_ref ∉ cfg.ingredients.map (fun ing => ing.id)

/-- The error names a reference that is genuinely missing in the
configuration: the brand, item and reference it carries exist and the
reference indeed fails to resolve. -/
def ErrorNamesMissingReference (cfg : WorldConfig) :
    ConfigurationError → Prop
  | .missingStationType bi ii st =>
      ∃ b ∈ cfg.brandCatalog, b.id = bi ∧ ∃ it ∈ b.items, it.id = ii ∧
        (∃ ins ∈ it.instructions, ins.required_station = st) ∧
        st ∉ reachableStationTypes cfg bi
  | .unresolvedIngredient bi ii r =>
      ∃ b ∈ cfg.brandCatalog, b.id = bi ∧ ∃ it ∈ b.items, it.id = ii ∧
        (∃ q ∈ it.ingredients, q.ingredient_ref = r) ∧
        r ∉ cfg.ingredients.map (fun ing => ing.id)
  | _ => False

/-- A reported station-type violation names a genuinely missing
reference. -/
theorem stationTypeViolation_sound (cfg : WorldConfig)
    (e : ConfigurationError) (h : stationTypeViolation cfg = some e) :
    ErrorNamesMissingReference cfg e := by
  unfold stationTypeViolation at h
  rcases List.exists_of_findSome?_eq_some h with ⟨b, hb, h1⟩
  rcases List.exists_of_findSome?_eq_some h1 with ⟨it, hit, h2⟩
  rcases List.exists_of_findSome?_eq_some h2 with ⟨ins, hins, h3⟩
  by_cases hmem : ins.required_station ∈ reachableStationTypes cfg b.id
  · rw [if_pos hmem] at h3; cases h3
  · rw [if_neg hmem] at h3
    injection h3 with h4
    rw [← h4]
    exact ⟨b, hb, rfl, it, hit, rfl, ⟨ins, hins, rfl⟩, hmem⟩

/-- If no station-type violation is reported, none exists. -/
theorem stationTypeViolation_complete (cfg : WorldConfig)
    (h : stationTypeViolation cfg = none) :
    ¬ HasStationTypeViolation cfg := by
  unfold stationTypeViolation at h
  rw [List.findSome?_eq_none_iff] at h
  rintro ⟨b, hb, it, hit, ins, hins, hmem⟩
  have h1 := h b hb
  rw [List.findSome?_eq_none_iff] at h1
  have h2 := h1 it hit
  rw [List.findSome?_eq_none_iff] at h2
  have h3 := h2 ins hins
  rw [if_neg hmem] at h3
  cases h3

/-- A reported ingredient violation names a genuinely missing
reference. -/
theorem ingredientViolation_sound (cfg : WorldConfig)
    (e : ConfigurationError) (h : ingredientViolation cfg = some e) :
    ErrorNamesMissingReference cfg e := by
  unfold ingredientViolation at h
  rcases List.exists_of_findSome?_eq_some h with ⟨b, hb, h1⟩
  rcases List.exists_of_findSome?_eq_some h1 with ⟨it, hit, h2⟩
  rcases List.exists_of_findSome?_eq_some h2 with ⟨q, hq, h3⟩
  by_cases hmem :
      q.ingredient_ref ∈ cfg.ingredients.map (fun ing => ing.id)
  · rw [if_pos hmem] at h3; cases h3
  · rw [if_neg hmem] at h3
    injection h3 with h4
    rw [← h4]
    exact ⟨b, hb, rfl, it, hit, rfl, ⟨q, hq, rfl⟩, hmem⟩

/-- If no ingredient violation is reported, none exists. -/
theorem ingredientViolation_complete (cfg : WorldConfig)
    (h : ingredientViolation cfg = none) :
    ¬ HasIngredientViolation cfg := by
  unfold ingredientViolation at h
  rw [List.findSome?_eq_none_iff] at h
  rintro ⟨b, hb, it, hit, q, hq, hmem⟩
  have h1 := h b hb
  rw [List.findSome?_eq_none_iff] at h1
  have h2 := h1 it hit
  rw [List.findSome?_eq_none_iff] at h2
  have h3 := h2 q hq
  rw [if_neg hmem] at h3
  cases h3

/-- C5: whenever some instruction's required station type is reachable
in no kitchen associated with its brand, or some ingredient reference
does not resolve, pre-run validation fails with a `ConfigurationError`
naming a genuinely missing reference, and the run aborts with that very
error before any tick executes. -/
theorem config_validation_fail_fast (cfg : WorldConfig) (p : SimParams)
    (duration : Nat) (outLoc routeLoc : String) (seed : Nat) (dryRun : Bool)
    (h : HasStationTypeViolation cfg ∨ HasIngredientViolation cfg) :
    ∃ e, validateConfig cfg = Except.error e ∧
      ErrorNamesMissingReference cfg e ∧
      runSimulationModel cfg p duration outLoc routeLoc seed dryRun =
        Except.error e := by
  have hv : ∃ e, validateConfig cfg = Except.error e ∧
      ErrorNamesMissingReference cfg e := by
    cases hst : stationTypeViolation cfg with
    | some e =>
      refine ⟨e, ?_, stationTypeViolation_sound cfg e hst⟩
      unfold validateConfig
      rw [hst]
    | none =>
      have hnost := stationTypeViolation_complete cfg hst
      rcases h with h | h
      · exact absurd h hnost
      · cases hing : ingredientViolation cfg with
        | some e =>
          refine ⟨e, ?_, ingredientViolation_sound cfg e hing⟩
          unfold validateConfig
          rw [hst, hing]
        | none => exact absurd h (ingredientViolation_complete cfg hing)
  rcases hv with ⟨e, he, hn⟩
  refine ⟨e, he, hn, ?_⟩
  unfold runSimulationModel
  rw [he]

/-- Menu item whose single instruction requires a `"grill"` station. -/
def grillItem : MenuItem :=
  { id := "i2", name := "steak", description := "", price := 20,
    image_url := none, ingredients := [],
    instructions := [{ step := "sear", description := "",
                       required_station := "grill",
                       expected_duration := 3 }] }

/-- Brand owning the grill item. -/
def grillBrand : Brand :=
  { id := "b2", name := "grillhouse", description := "", category := "bbq",
    items := [grillItem] }

/-- Scenario C configuration: the instruction requires `"grill"` but the
only reachable kitchen has a `"w"` station. -/
def grillCfg : WorldConfig :=
  { setup := exampleSetup, brandCatalog := [grillBrand], ingredients := [],
    kitchenBrands := [("k1", "b2")] }

/-- Concrete application of the fail-fast theorem to Scenario C. -/
theorem config_validation_fail_fast_witness :
    (HasStationTypeViolation grillCfg ∨ HasIngredientViolation grillCfg) ∧
    ∃ e, validateConfig grillCfg = Except.error e ∧
      ErrorNamesMissingReference grillCfg e ∧
      runSimulationModel grillCfg quietParams 5 "out" "route" 0 false =
        Except.error e :=
  ⟨Or.inl (by unfold HasStationTypeViolation; decide),
   config_validation_fail_fast grillCfg quietParams 5 "out" "route" 0 false
     (Or.inl (by unfold HasStationTypeViolation; decide))⟩

end ClaimC5

section ClaimC2

/-- The capacity bound: every station of the setup hosts at most
`capacity` concurrently-executing instructions. -/
def StationBound (setup : SimulationSetup) (orders : List OrderRec) : Prop :=
  ∀ ks ∈ stationsOf setup, occupiedCount orders ks.2.id ≤ ks.2.capacity

/-- Updating one element with a function that never turns a
non-satisfying order into a satisfying one cannot raise a count. -/
theorem countP_updateFirst_le (p : OrderRec → Bool) (f : OrderRec → OrderRec)
    (oid : Nat) (hf : ∀ o, p (f o) = true → p o = true) :
    ∀ l : List OrderRec, (updateFirst oid f l).countP p ≤ l.countP p := by
  intro l
  induction l with
  | nil => simp [updateFirst]
  | cons o rest ih =>
    unfold updateFirst
    by_cases ho : (o.id == oid) = true
    · rw [if_pos ho, List.countP_cons, List.countP_cons]
      by_cases hp : p (f o) = true
      · rw [if_pos hp, if_pos (hf o hp)]
      · rw [if_neg hp]
        omega
    · rw [if_neg ho, List.countP_cons, List.countP_cons]
      omega

/-- Updating one element raises a count by at most one. -/
theorem countP_updateFirst_le_succ (p : OrderRec → Bool)
    (f : OrderRec → OrderRec) (oid : Nat) :
    ∀ l : List OrderRec, (updateFirst oid f l).countP p ≤ l.countP p + 1 := by
  intro l
  induction l with
  | nil => simp [updateFirst]
  | cons o rest ih =>
    unfold updateFirst
    by_cases ho : (o.id == oid) = true
    · rw [if_pos ho, List.countP_cons, List.countP_cons]
      by_cases hp : p (f o) = true
      · rw [if_pos hp]
        omega
      · rw [if_neg hp]
        omega
    · rw [if_neg ho, List.countP_cons, List.countP_cons]
      omega

/-- A successful free-slot search returns a station of the requested
kitchen with a strictly free slot. -/
theorem findFreeStation_mem (setup : SimulationSetup)
    (orders : List OrderRec) (kid stype : String) (st : Station)
    (h : findFreeStation setup orders kid stype = some st) :
    (kid, st) ∈ stationsOf setup ∧
      occupiedCount orders st.id < st.capacity := by
  unfold findFreeStation at h
  have hmem := List.mem_of_find?_eq_some h
  have hpred := List.find?_some h
  rw [Bool.and_eq_true] at hpred
  constructor
  · unfold stationsOfKitchen at hmem
    rw [List.mem_filterMap] at hmem
    rcases hmem with ⟨pr, hpr, hif⟩
    by_cases hk : (pr.1 == kid) = true
    · rw [if_pos hk] at hif
      injection hif with h2
      have hpr2 : pr = (kid, st) := by
        rcases pr with ⟨a, b⟩
        simp only at h2
        have ha : a = kid := by simpa using hk
        rw [ha, h2]
      rw [← hpr2]
      exact hpr
    · rw [if_neg hk] at hif
      cases hif
  · have hblt := hpred.2
    rw [Nat.blt_eq] at hblt
    exact hblt

/-- One scheduler grant preserves the capacity bound: a grant is issued
only against a station with a strictly free slot, station identities are
unique, and other stations' counts cannot grow. -/
theorem grantOne_bound (setup : SimulationSetup) (T : Nat)
    (orders : List OrderRec) (oid : Nat)
    (hnd : ((stationsOf setup).map (fun pr => pr.2.id)).Nodup)
    (hb : StationBound setup orders) :
    StationBound setup (grantOne setup T orders oid).1 := by
  unfold grantOne
  split
  · exact hb
  · split
    · exact hb
    · split
      · intro ks hks
        unfold occupiedCount
        refine le_trans (countP_updateFirst_le _ _ oid ?_ orders)
          (hb ks hks)
        intro o2 hp2
        exact absurd hp2 (by simp)
      · split
        · exact hb
        · rename_i st hst
          intro ks hks
          rcases findFreeStation_mem setup orders _ _ st hst with
            ⟨hmem, hlt⟩
          by_cases hid : ks.2.id = st.id
          · have heq := List.inj_on_of_nodup_map hnd hks hmem
              (by simpa using hid)
            have h2 : List.countP
                (fun o2 => o2.currentStation == some ks.2.id) orders <
                ks.2.capacity := by
              rw [heq]
              exact hlt
            unfold occupiedCount
            refine le_trans (countP_updateFirst_le_succ _ _ oid orders) ?_
            omega
          · unfold occupiedCount
            refine le_trans (countP_updateFirst_le _ _ oid ?_ orders)
              (hb ks hks)
            intro o2 hp2
            simp only [Option.some.injEq, beq_iff_eq] at hp2
            exact absurd hp2.symm hid

/-- The whole scheduler pass preserves the capacity bound. -/
theorem grantLoop_bound (setup : SimulationSetup) (T : Nat)
    (hnd : ((stationsOf setup).map (fun pr => pr.2.id)).Nodup) :
    ∀ (reqs : List OrderRec) (orders : List OrderRec) (evs : List Event),
      StationBound setup orders →
      StationBound setup (grantLoop setup T reqs (orders, evs)).1 := by
  intro reqs
  induction reqs with
  | nil => intro orders evs h; exact h
  | cons o rest ih =>
    intro orders evs h
    exact ih _ _ (grantOne_bound setup T orders o.id hnd h)

/-- The grant phase preserves the capacity bound. -/
theorem grantPhase_bound (setup : SimulationSetup) (T : Nat)
    (orders : List OrderRec)
    (hnd : ((stationsOf setup).map (fun pr => pr.2.id)).Nodup)
    (hb : StationBound setup orders) :
    StationBound setup (grantPhase setup T orders).1 := by
  unfold grantPhase
  exact grantLoop_bound setup T hnd _ orders [] hb

/-- Instruction completion never acquires a station slot. -/
theorem completeOne_station (T : Nat) (o : OrderRec) :
    (completeOne T o).1.currentStation = o.currentStation ∨
      (completeOne T o).1.currentStation = none := by
  unfold completeOne
  split
  · split
    · right; rfl
    · split
      · split
        · right; rfl
        · right; rfl
      · left; rfl
  · left; rfl

/-- The completion phase preserves the capacity bound: slots are only
released. -/
theorem completePhase_bound (setup : SimulationSetup) (T : Nat)
    (orders : List OrderRec) (hb : StationBound setup orders) :
    StationBound setup (completePhase T orders).1 := by
  intro ks hks
  refine le_trans ?_ (hb ks hks)
  unfold completePhase occupiedCount
  rw [List.countP_map]
  apply List.countP_mono_left
  intro o ho hp
  rcases completeOne_station T o with h | h
  · simpa [Function.comp, h] using hp
  · exact absurd hp (by simp [Function.comp, h])

/-- Delivery transitions never touch station slots. -/
theorem deliverOne_station (p : SimParams) (seed T : Nat) (o : OrderRec) :
    (deliverOne p seed T o).1.currentStation = o.currentStation := by
  unfold deliverOne
  split
  · split
    · rfl
    · rfl
  · split
    · split
      · rfl
      · rfl
    · rfl
  · split
    · rfl
    · rfl
  · rfl
  · rfl

/-- The delivery phase preserves the capacity bound. -/
theorem deliveryPhase_bound (setup : SimulationSetup) (p : SimParams)
    (seed T : Nat) (orders : List OrderRec) (hb : StationBound setup orders) :
    StationBound setup (deliveryPhase p seed T orders).1 := by
  intro ks hks
  refine le_trans ?_ (hb ks hks)
  unfold deliveryPhase occupiedCount
  rw [List.countP_map]
  apply List.countP_mono_left
  intro o ho hp
  simpa [Function.comp, deliverOne_station p seed T o] using hp

/-- Fresh arrivals hold no station slot. -/
theorem mkOrder_station (cfg : WorldConfig) (seed T oid : Nat)
    (o : OrderRec) (h : mkOrder cfg seed T oid = some o) :
    o.currentStation = none := by
  unfold mkOrder at h
  split at h
  · cases h
  · split at h
    · cases h
    · split at h
      · cases h
      · injection h with h2
        rw [← h2]

/-- The spawn phase preserves the capacity bound: new orders occupy
nothing. -/
theorem spawnPhase_bound (setup : SimulationSetup) (cfg : WorldConfig)
    (p : SimParams) (seed T nid : Nat) (orders : List OrderRec)
    (hb : StationBound setup orders) :
    StationBound setup (orders ++ (spawnPhase cfg p seed T nid).1) := by
  intro ks hks
  unfold occupiedCount
  rw [List.countP_append]
  have hz : ((spawnPhase cfg p seed T nid).1).countP
      (fun o => o.currentStation == some ks.2.id) = 0 := by
    rw [List.countP_eq_zero]
    intro o ho
    unfold spawnPhase at ho
    simp only [List.mem_filterMap] at ho
    rcases ho with ⟨k, _, hmk⟩
    simp [mkOrder_station cfg seed T (nid + k) o hmk]
  rw [hz]
  simpa using hb ks hks

/-- One tick preserves the capacity bound. -/
theorem stepSim_bound (s : Sim)
    (hnd : ((stationsOf s.cfg.setup).map (fun pr => pr.2.id)).Nodup)
    (hb : StationBound s.cfg.setup s.orders) :
    StationBound s.cfg.setup (stepSim s).orders := by
  have h1 := spawnPhase_bound s.cfg.setup s.cfg s.params s.seed s.tick
    s.nextId s.orders hb
  have h2 := completePhase_bound s.cfg.setup s.tick _ h1
  have h3 := grantPhase_bound s.cfg.setup s.tick _ hnd h2
  exact deliveryPhase_bound s.cfg.setup s.params s.seed s.tick _ h3

/-- Every tick of the run preserves the capacity bound. -/
theorem runSteps_bound (n : Nat) :
    ∀ s : Sim,
      ((stationsOf s.cfg.setup).map (fun pr => pr.2.id)).Nodup →
      StationBound s.cfg.setup s.orders →
      StationBound s.cfg.setup (runSteps n s).orders := by
  induction n with
  | zero => intro s _ hb; exact hb
  | succ n ih =>
    intro s hnd hb
    have hcfg : (stepSim s).cfg = s.cfg := rfl
    have := ih (stepSim s) (by rw [hcfg]; exact hnd)
      (by rw [hcfg]; exact stepSim_bound s hnd hb)
    rw [hcfg] at this
    exact this

/-- A validated configuration has positive capacities. -/
theorem validate_capacities (cfg : WorldConfig)
    (h : validateConfig cfg = Except.ok ()) :
    ∀ ks ∈ stationsOf cfg.setup, 1 ≤ ks.2.capacity := by
  have hcap : capacityViolation cfg = none := by
    unfold validateConfig at h
    cases h1 : stationTypeViolation cfg with
    | some e => rw [h1] at h; cases h
    | none =>
      rw [h1] at h
      cases h2 : ingredientViolation cfg with
      | some e => rw [h2] at h; cases h
      | none =>
        rw [h2] at h
        cases h3 : capacityViolation cfg with
        | some e => rw [h3] at h; cases h
        | none => rfl
  unfold capacityViolation at hcap
  rw [List.findSome?_eq_none_iff] at hcap
  intro ks hks
  have := hcap ks hks
  by_cases hz : ks.2.capacity = 0
  · rw [if_pos hz] at this
    cases this
  · omega

/-- A validated configuration has unique station identities. -/
theorem validate_nodup (cfg : WorldConfig)
    (h : validateConfig cfg = Except.ok ()) :
    ((stationsOf cfg.setup).map (fun pr => pr.2.id)).Nodup := by
  have hdup : duplicateViolation cfg = none := by
    unfold validateConfig at h
    cases h1 : stationTypeViolation cfg with
    | some e => rw [h1] at h; cases h
    | none =>
      rw [h1] at h
      cases h2 : ingredientViolation cfg with
      | some e => rw [h2] at h; cases h
      | none =>
        rw [h2] at h
        cases h3 : capacityViolation cfg with
        | some e => rw [h3] at h; cases h
        | none =>
          rw [h3] at h
          cases h4 : duplicateViolation cfg with
          | some e => rw [h4] at h; cases h
          | none => rfl
  unfold duplicateViolation at hdup
  by_cases hn : ((stationsOf cfg.setup).map (fun pr => pr.2.id)).Nodup
  · exact hn
  · rw [if_neg hn] at hdup
    cases hdup

/-- C2: in a validated configuration every station has capacity at least
1, and at every tick of any run from the public entry point the number
of concurrently-executing instructions at each station stays within its
capacity. -/
theorem station_capacity_invariant (cfg : WorldConfig) (p : SimParams)
    (seed : Nat) (outLoc : String) (n : Nat)
    (h : validateConfig cfg = Except.ok ()) :
    (∀ ks ∈ stationsOf cfg.setup, 1 ≤ ks.2.capacity) ∧
    ∀ ks ∈ stationsOf cfg.setup,
      occupiedCount (runSteps n (initSim cfg p seed outLoc)).orders
        ks.2.id ≤ ks.2.capacity := by
  refine ⟨validate_capacities cfg h, ?_⟩
  have h0 : StationBound cfg.setup (initSim cfg p seed outLoc).orders := by
    intro ks _
    simp [initSim, occupiedCount]
  exact runSteps_bound n (initSim cfg p seed outLoc)
    (validate_nodup cfg h) h0

/-- Concrete application of the capacity invariant: three ticks of the
example configuration. -/
theorem station_capacity_invariant_witness :
    (∀ ks ∈ stationsOf exampleCfg.setup, 1 ≤ ks.2.capacity) ∧
    ∀ ks ∈ stationsOf exampleCfg.setup,
      occupiedCount
        (runSteps 3 (initSim exampleCfg quietParams 7 "out")).orders
        ks.2.id ≤ ks.2.capacity :=
  station_capacity_invariant exampleCfg quietParams 7 "out" 3 (by rfl)

end ClaimC2

section ClaimC4

/-- An order executing an instruction granted at `g` that has not yet
reached its expected duration at tick `T`. -/
def ExecutingUnfinished (T : Nat) (o : OrderRec) : Prop :=
  ∃ i g ins, o.state = OrderState.inPreparation i ∧ o.grantTick = some g ∧
    o.item.instructions.get? i = some ins ∧ T < g + ins.expected_duration

/-- The completion pass leaves an unfinished executing order untouched. -/
theorem completeOne_unfinished (T : Nat) (o : OrderRec)
    (h : ExecutingUnfinished T o) : completeOne T o = (o, []) := by
  rcases h with ⟨i, g, ins, hs, hg, hins, hlt⟩
  simp only [completeOne, hs, hg, hins]
  rw [if_neg (by omega)]

/-- An executing order requests nothing from the scheduler. -/
theorem requestedStep_executing (T : Nat) (o : OrderRec) (i g : Nat)
    (hs : o.state = OrderState.inPreparation i)
    (hg : o.grantTick = some g) : requestedStep T o = none := by
  simp only [requestedStep, hs, hg]
  split <;> rfl

/-- The delivery pass leaves an order in preparation untouched. -/
theorem deliverOne_inPreparation (p : SimParams) (seed T : Nat)
    (o : OrderRec) (i : Nat) (hs : o.state = OrderState.inPreparation i) :
    deliverOne p seed T o = (o, []) := by
  simp only [deliverOne, hs]

/-- Updating the first matching element preserves length. -/
theorem updateFirst_length (oid : Nat) (f : OrderRec → OrderRec) :
    ∀ l : List OrderRec, (updateFirst oid f l).length = l.length := by
  intro l
  induction l with
  | nil => rfl
  | cons o rest ih =>
    unfold updateFirst
    by_cases ho : (o.id == oid) = true
    · rw [if_pos ho]
      rfl
    · rw [if_neg ho]
      simp [ih]

/-- A position is either untouched by `updateFirst`, or it is exactly the
first element with the given id — the one `find?` returns. -/
theorem updateFirst_getD (oid : Nat) (f : OrderRec → OrderRec)
    (d : OrderRec) :
    ∀ (l : List OrderRec) (k : Nat),
      (updateFirst oid f l).getD k d = l.getD k d ∨
        ((updateFirst oid f l).getD k d = f (l.getD k d) ∧
          l.find? (fun o => o.id == oid) = some (l.getD k d)) := by
  intro l
  induction l with
  | nil => intro k; left; rfl
  | cons o rest ih =>
    intro k
    unfold updateFirst
    by_cases ho : (o.id == oid) = true
    · rw [if_pos ho]
      cases k with
      | zero =>
        right
        exact ⟨rfl, List.find?_cons_of_pos _ ho⟩
      | succ k => left; rfl
    · rw [if_neg ho]
      cases k with
      | zero => left; rfl
      | succ k =>
        rcases ih k with h | ⟨h1, h2⟩
        · left
          simpa using h
        · right
          refine ⟨by simpa using h1, ?_⟩
          simp [ho, h2]

/-- A scheduler evaluation for some order id moves no order that is not
itself requesting: position `k` is preserved verbatim. -/
theorem grantOne_getD (setup : SimulationSetup) (T : Nat)
    (l : List OrderRec) (oid k : Nat) (d : OrderRec)
    (h : requestedStep T (l.getD k d) = none) :
    (grantOne setup T l oid).1.getD k d = l.getD k d ∧
    (grantOne setup T l oid).1.length = l.length := by
  unfold grantOne
  split
  · exact ⟨rfl, rfl⟩
  · rename_i o hfind
    split
    · exact ⟨rfl, rfl⟩
    · rename_i i hreq
      have key : ∀ f : OrderRec → OrderRec,
          (updateFirst oid f l).getD k d = l.getD k d := by
        intro f
        rcases updateFirst_getD oid f d l k with h1 | ⟨h1, h2⟩
        · exact h1
        · rw [hfind] at h2
          injection h2 with h3
          rw [h3] at hreq
          rw [h] at hreq
          cases hreq
      split
      · exact ⟨key _, updateFirst_length oid _ l⟩
      · split
        · exact ⟨rfl, rfl⟩
        · exact ⟨key _, updateFirst_length oid _ l⟩

/-- The whole scheduler pass preserves every non-requesting position. -/
theorem grantLoop_getD (setup : SimulationSetup) (T : Nat) (k : Nat)
    (d : OrderRec) :
    ∀ (reqs orders : List OrderRec) (evs : List Event),
      requestedStep T (orders.getD k d) = none →
      (grantLoop setup T reqs (orders, evs)).1.getD k d =
          orders.getD k d ∧
        (grantLoop setup T reqs (orders, evs)).1.length =
          orders.length := by
  intro reqs
  induction reqs with
  | nil => intro orders evs h; exact ⟨rfl, rfl⟩
  | cons o rest ih =>
    intro orders evs h
    have h1 := grantOne_getD setup T orders o.id k d h
    have h2 := ih (grantOne setup T orders o.id).1
      (evs ++ (grantOne setup T orders o.id).2)
      (by rw [h1.1]; exact h)
    refine ⟨?_, ?_⟩
    · calc (grantLoop setup T (o :: rest) (orders, evs)).1.getD k d
          = (grantLoop setup T rest
              ((grantOne setup T orders o.id).1,
                evs ++ (grantOne setup T orders o.id).2)).1.getD k d := rfl
      _ = (grantOne setup T orders o.id).1.getD k d := h2.1
      _ = orders.getD k d := h1.1
    · calc (grantLoop setup T (o :: rest) (orders, evs)).1.length
          = (grantLoop setup T rest
              ((grantOne setup T orders o.id).1,
                evs ++ (grantOne setup T orders o.id).2)).1.length := rfl
      _ = (grantOne setup T orders o.id).1.length := h2.2
      _ = orders.length := h1.2

/-- Positional read through a map. -/
theorem getD_map_pos (f : OrderRec → OrderRec) (d : OrderRec) :
    ∀ (l : List OrderRec) (k : Nat), k < l.length →
      (l.map f).getD k d = f (l.getD k d) := by
  intro l
  induction l with
  | nil => intro k hk; exact absurd hk (by simp)
  | cons o rest ih =>
    intro k hk
    cases k with
    | zero => rfl
    | succ k =>
      simp only [List.map_cons, List.getD_cons_succ]
      exact ih k (by simpa using hk)

/-- C4 helper — no preemption: one tick leaves an executing,
not-yet-complete instruction's order completely untouched at its
position. -/
theorem stepSim_no_preemption (s : Sim) (k : Nat) (d : OrderRec)
    (hk : k < s.orders.length)
    (h : ExecutingUnfinished s.tick (s.orders.getD k d)) :
    k < (stepSim s).orders.length ∧
    (stepSim s).orders.getD k d = s.orders.getD k d := by
  obtain ⟨i, g, ins, hs, hg, hins, hlt⟩ := h
  set T := s.tick with hT
  set o0 := s.orders.getD k d with ho0
  set sp := spawnPhase s.cfg s.params s.seed T s.nextId with hsp
  have l1 : (s.orders ++ sp.1).getD k d = o0 :=
    List.getD_append _ _ _ _ hk
  have l1len : k < (s.orders ++ sp.1).length := by
    rw [List.length_append]
    omega
  set orders1 := s.orders ++ sp.1 with h1
  set c := completePhase T orders1 with hc
  have l2 : c.1.getD k d = o0 := by
    rw [hc]
    unfold completePhase
    rw [getD_map_pos _ _ _ _ l1len, l1]
    rw [completeOne_unfinished T o0 ⟨i, g, ins, hs, hg, hins, hlt⟩]
  have l2len : k < c.1.length := by
    rw [hc]
    unfold completePhase
    simpa using l1len
  set gr := grantPhase s.cfg.setup T c.1 with hgr
  have hreqnone : requestedStep T (c.1.getD k d) = none := by
    rw [l2]
    exact requestedStep_executing T o0 i g hs hg
  have l3 : gr.1.getD k d = o0 ∧ gr.1.length = c.1.length := by
    rw [hgr]
    unfold grantPhase
    have := grantLoop_getD s.cfg.setup T k d
      (sortFifo (c.1.filter (fun o => (requestedStep T o).isSome)))
      c.1 [] hreqnone
    rw [l2] at this
    exact this
  set dl := deliveryPhase s.params s.seed T gr.1 with hdl
  have l4 : dl.1.getD k d = o0 := by
    rw [hdl]
    unfold deliveryPhase
    rw [getD_map_pos _ _ _ _ (by rw [l3.2]; exact l2len), l3.1]
    rw [deliverOne_inPreparation s.params s.seed T o0 i hs]
  have l4len : k < dl.1.length := by
    rw [hdl]
    unfold deliveryPhase
    simp only [List.length_map]
    rw [l3.2]
    exact l2len
  constructor
  · exact l4len
  · exact l4

/-- The identifiers and names of a Scenario A setup.  The scenario's
behavior depends on none of them: the claim quantifies over every setup
of this shape. -/
structure ScenarioNames where
  siteId : String
  siteName : String
  kitchenId : String
  kitchenName : String
  stationId : String
  stationName : String
  stationType : String
  brandId : String
  brandName : String
  itemId : String
  itemName : String
  step1 : String
  step2 : String
  step3 : String
  outLoc : String
deriving DecidableEq, Repr

/-- The three instructions of Scenario A: expected durations 2, 10 and
2 ticks, all on the setup's single station type. -/
def instructionsA (nm : ScenarioNames) : List Instruction :=
  [{ step := nm.step1, description := "", required_station := nm.stationType,
     expected_duration := 2 },
   { step := nm.step2, description := "", required_station := nm.stationType,
     expected_duration := 10 },
   { step := nm.step3, description := "", required_station := nm.stationType,
     expected_duration := 2 }]

/-- The Scenario A menu item. -/
def itemA (nm : ScenarioNames) : MenuItem :=
  { id := nm.itemId, name := nm.itemName, description := "", price := 0,
    image_url := none, ingredients := [], instructions := instructionsA nm }

/-- A setup with exactly one kitchen holding exactly one station of
capacity 1. -/
def setupA (nm : ScenarioNames) : SimulationSetup :=
  { sites := [{ info := some { id := nm.siteId, name := nm.siteName,
                               latitude := 0, longitude := 0 },
                kitchens := [{ info := some { id := nm.kitchenId,
                                              name := nm.kitchenName },
                               stations := [{ id := nm.stationId,
                                              name := nm.stationName,
                                              station_type := nm.stationType,
                                              capacity := 1 }] }] }],
    brands := [nm.brandId] }

/-- The Scenario A configuration. -/
def cfgA (nm : ScenarioNames) : WorldConfig :=
  { setup := setupA nm,
    brandCatalog := [{ id := nm.brandId, name := nm.brandName,
                       description := "", category := "",
                       items := [itemA nm] }],
    ingredients := [], kitchenBrands := [(nm.kitchenId, nm.brandId)] }

/-- One-instruction recipe of the given duration on the setup's station
type. -/
def oneStepItem (nm : ScenarioNames) (stepName : String) (dur : Nat) :
    MenuItem :=
  { id := nm.itemId, name := nm.itemName, description := "", price := 0,
    image_url := none, ingredients := [],
    instructions := [{ step := stepName, description := "",
                       required_station := nm.stationType,
                       expected_duration := dur }] }

/-- Scenario B Order 1, created at tick 0. -/
def orderB1 (nm : ScenarioNames) (d1 : Nat) : OrderRec :=
  { id := 0, creationTick := 0, kitchenId := nm.kitchenId,
    item := oneStepItem nm nm.step1 d1, distance := 0,
    state := OrderState.queued, grantTick := none,
    currentStation := none, eta := none }

/-- Scenario B Order 2, created at tick 1. -/
def orderB2 (nm : ScenarioNames) (d2 : Nat) : OrderRec :=
  { id := 1, creationTick := 1, kitchenId := nm.kitchenId,
    item := oneStepItem nm nm.step2 d2, distance := 0,
    state := OrderState.queued, grantTick := none,
    currentStation := none, eta := none }

/-- Scenario B initial World State: two orders contending for the single
capacity-1 station. -/
def simB (nm : ScenarioNames) (seed d1 d2 : Nat) : Sim :=
  { cfg := cfgA nm, params := quietParams, seed := seed,
    outputLocation := nm.outLoc, tick := 0, nextId := 2,
    orders := [orderB1 nm d1, orderB2 nm d2], events := [], writes := [] }

/-- Order 1 executing on the station since tick 0. -/
def execB1 (nm : ScenarioNames) (d1 : Nat) : OrderRec :=
  { (orderB1 nm d1) with
    state := OrderState.inPreparation 0
    grantTick := some 0
    currentStation := some nm.stationId }

/-- The grant event of Order 1 at tick 0. -/
def grantEvB1 (nm : ScenarioNames) : Event :=
  { type := "station.granted", tick := 0, subject := 0,
    payload := nm.step1 }

/-- World State during ticks 1..d1: Order 1 executes, Order 2 waits. -/
def simBmid (nm : ScenarioNames) (seed d1 d2 T : Nat) : Sim :=
  { (simB nm seed d1 d2) with
    tick := T
    orders := [execB1 nm d1, orderB2 nm d2]
    events := [grantEvB1 nm] }

/-- Order 1 after its instruction completed and released the slot. -/
def readyB1 (nm : ScenarioNames) (d1 : Nat) : OrderRec :=
  { (orderB1 nm d1) with state := OrderState.ready }

/-- Order 2 executing since tick `g`. -/
def execB2 (nm : ScenarioNames) (d2 g : Nat) : OrderRec :=
  { (orderB2 nm d2) with
    state := OrderState.inPreparation 0
    grantTick := some g
    currentStation := some nm.stationId }

/-- World State after tick d1: the slot released by Order 1 was granted
to Order 2 in the same tick. -/
def simBdone (nm : ScenarioNames) (seed d1 d2 : Nat) : Sim :=
  { (simB nm seed d1 d2) with
    tick := d1 + 1
    orders := [readyB1 nm d1, execB2 nm d2 d1]
    events := [grantEvB1 nm,
      { type := "step.completed", tick := d1, subject := 0,
        payload := nm.step1 },
      { type := "order.ready", tick := d1, subject := 0, payload := "" },
      { type := "station.granted", tick := d1, subject := 1,
        payload := nm.step2 }] }

/-- Tick 0 of Scenario B: Order 1 (created at tick 0) is granted the
station; Order 2 (created at tick 1) is not yet active. -/
theorem stepB_start (nm : ScenarioNames) (seed d1 d2 : Nat) :
    stepSim (simB nm seed d1 d2) = simBmid nm seed d1 d2 1 := by
  simp [stepSim, simB, simBmid, spawnPhase, spawnCount, quietParams,
    completePhase, completeOne, grantPhase, grantLoop, grantOne,
    requestedStep, sortFifo, insertFifo, reqLe, findFreeStation,
    stationsOfKitchen, stationsOf, kitchenSetups, cfgA, setupA,
    occupiedCount, updateFirst, deliveryPhase, deliverOne, snapWrites,
    orderB1, orderB2, execB1, grantEvB1, oneStepItem]

/-- Ticks 1..d1-1 of Scenario B: Order 1 keeps executing, Order 2's
request is denied because the only slot is occupied. -/
theorem stepB_mid (nm : ScenarioNames) (seed d1 d2 T : Nat)
    (h1 : 1 ≤ T) (h2 : T < d1) :
    stepSim (simBmid nm seed d1 d2 T) = simBmid nm seed d1 d2 (T + 1) := by
  have hc1 : ¬ (d1 ≤ T) := by omega
  have hspawn : spawnPhase (cfgA nm) quietParams seed T 2 =
      ([], 2, []) := by
    simp [spawnPhase, spawnCount, quietParams]
  have hreq1 : requestedStep T (execB1 nm d1) = none := by
    simp [requestedStep, execB1, orderB1]
  have hreq2 : requestedStep T (orderB2 nm d2) = some 0 := by
    simp [requestedStep, orderB2, h1]
  have hcomp : completePhase T [execB1 nm d1, orderB2 nm d2] =
      ([execB1 nm d1, orderB2 nm d2], []) := by
    simp [completePhase, completeOne, execB1, orderB1, orderB2,
      oneStepItem, hc1]
  have hgrant : grantPhase (setupA nm) T [execB1 nm d1, orderB2 nm d2] =
      ([execB1 nm d1, orderB2 nm d2], []) := by
    unfold grantPhase
    rw [show List.filter (fun o => (requestedStep T o).isSome)
        [execB1 nm d1, orderB2 nm d2] = [orderB2 nm d2] by
      simp [List.filter, hreq1, hreq2]]
    simp [sortFifo, insertFifo, grantLoop, grantOne, requestedStep, h1,
      findFreeStation, stationsOfKitchen, stationsOf, kitchenSetups,
      setupA, occupiedCount, execB1, orderB1, orderB2, oneStepItem]
  have hdel : deliveryPhase quietParams seed T
      [execB1 nm d1, orderB2 nm d2] =
      ([execB1 nm d1, orderB2 nm d2], []) := by
    simp [deliveryPhase, deliverOne, execB1, orderB1, orderB2]
  show stepSim (simBmid nm seed d1 d2 T) = simBmid nm seed d1 d2 (T + 1)
  unfold stepSim
  simp only [simBmid, simB, hspawn, List.append_nil, hcomp]
  rw [show (cfgA nm).setup = setupA nm from rfl]
  simp only [hgrant, hdel]
  simp [snapWrites, quietParams, simBmid, simB]

/-- Tick d1 of Scenario B: Order 1's instruction reaches its expected
duration, releases the slot at this exact transition, and the slot is
granted to Order 2 in the same tick. -/
theorem stepB_last (nm : ScenarioNames) (seed d1 d2 : Nat)
    (hd1 : 1 ≤ d1) :
    stepSim (simBmid nm seed d1 d2 d1) = simBdone nm seed d1 d2 := by
  have hspawn : spawnPhase (cfgA nm) quietParams seed d1 2 =
      ([], 2, []) := by
    simp [spawnPhase, spawnCount, quietParams]
  have hcomp : completePhase d1 [execB1 nm d1, orderB2 nm d2] =
      ([readyB1 nm d1, orderB2 nm d2],
       [{ type := "step.completed", tick := d1, subject := 0,
          payload := nm.step1 },
        { type := "order.ready", tick := d1, subject := 0,
          payload := "" }]) := by
    simp [completePhase, completeOne, execB1, orderB1, orderB2, readyB1,
      oneStepItem]
  have hreq1 : requestedStep d1 (readyB1 nm d1) = none := by
    simp [requestedStep, readyB1, orderB1]
  have hreq2 : requestedStep d1 (orderB2 nm d2) = some 0 := by
    simp [requestedStep, orderB2, hd1]
  have hgrant : grantPhase (setupA nm) d1 [readyB1 nm d1, orderB2 nm d2] =
      ([readyB1 nm d1, execB2 nm d2 d1],
       [{ type := "station.granted", tick := d1, subject := 1,
          payload := nm.step2 }]) := by
    unfold grantPhase
    rw [show List.filter (fun o => (requestedStep d1 o).isSome)
        [readyB1 nm d1, orderB2 nm d2] = [orderB2 nm d2] by
      simp [List.filter, hreq1, hreq2]]
    simp [sortFifo, insertFifo, grantLoop, grantOne, requestedStep, hd1,
      findFreeStation, stationsOfKitchen, stationsOf, kitchenSetups,
      setupA, occupiedCount, updateFirst, execB2, readyB1, orderB1,
      orderB2, oneStepItem]
  have hdel : deliveryPhase quietParams seed d1
      [readyB1 nm d1, execB2 nm d2 d1] =
      ([readyB1 nm d1, execB2 nm d2 d1], []) := by
    simp [deliveryPhase, deliverOne, execB2, readyB1, orderB1, orderB2,
      quietParams]
  show stepSim (simBmid nm seed d1 d2 d1) = simBdone nm seed d1 d2
  unfold stepSim
  simp only [simBmid, simB, hspawn, List.append_nil, hcomp]
  rw [show (cfgA nm).setup = setupA nm from rfl]
  simp only [hgrant, hdel]
  simp [snapWrites, quietParams, simBdone, simB, grantEvB1]

/-- Peeling a run from the back. -/
theorem runSteps_succ (n : Nat) :
    ∀ s : Sim, runSteps (n + 1) s = stepSim (runSteps n s) := by
  induction n with
  | zero => intro s; rfl
  | succ n ih =>
    intro s
    calc runSteps (n + 1 + 1) s = runSteps (n + 1) (stepSim s) := rfl
    _ = stepSim (runSteps n (stepSim s)) := ih (stepSim s)
    _ = stepSim (runSteps (n + 1) s) := rfl

/-- The middle of the Scenario B run. -/
theorem runSteps_simB_mid (nm : ScenarioNames) (seed d1 d2 : Nat) :
    ∀ T, 1 ≤ T → T ≤ d1 →
      runSteps T (simB nm seed d1 d2) = simBmid nm seed d1 d2 T := by
  intro T
  induction T with
  | zero => intro h _; exact absurd h (by omega)
  | succ T ih =>
    intro h1 h2
    by_cases hT : T = 0
    · subst hT
      rw [runSteps_succ 0]
      exact stepB_start nm seed d1 d2
    · rw [runSteps_succ T, ih (by omega) (by omega)]
      exact stepB_mid nm seed d1 d2 T (by omega) (by omega)

/-- The end of the Scenario B run. -/
theorem runSteps_simB_done (nm : ScenarioNames) (seed d1 d2 : Nat)
    (hd1 : 1 ≤ d1) :
    runSteps (d1 + 1) (simB nm seed d1 d2) = simBdone nm seed d1 d2 := by
  rw [runSteps_succ d1,
    runSteps_simB_mid nm seed d1 d2 d1 hd1 (Nat.le_refl d1)]
  exact stepB_last nm seed d1 d2 hd1

/-- C4: for every pair of orders contending for the same capacity-1
station, with Order 1 created at tick 0 and Order 2 at tick 1, Order 1's
request is granted first (at tick 0); Order 2 stays queued without a
grant for as long as Order 1's instruction runs, and its first
instruction starts exactly when Order 1's instruction releases the slot
at tick d1; and — in any World State whatsoever — a started instruction
is never preempted: one tick leaves an executing, unfinished order
completely untouched. -/
theorem fifo_admission_and_no_preemption :
    (∀ (nm : ScenarioNames) (seed d1 d2 : Nat), 1 ≤ d1 →
      ((runSteps 1 (simB nm seed d1 d2)).orders.getD 0
          (orderB1 nm d1)).grantTick = some 0 ∧
      ((runSteps 1 (simB nm seed d1 d2)).orders.getD 1
          (orderB1 nm d1)).state = OrderState.queued ∧
      (∀ T, T ≤ d1 →
        ((runSteps T (simB nm seed d1 d2)).orders.getD 1
            (orderB1 nm d1)).grantTick = none ∧
        ((runSteps T (simB nm seed d1 d2)).orders.getD 1
            (orderB1 nm d1)).state = OrderState.queued) ∧
      ((runSteps (d1 + 1) (simB nm seed d1 d2)).orders.getD 1
          (orderB1 nm d1)).grantTick = some d1 ∧
      ((runSteps (d1 + 1) (simB nm seed d1 d2)).orders.getD 0
          (orderB1 nm d1)).state = OrderState.ready) ∧
    (∀ (s : Sim) (k : Nat) (dflt : OrderRec), k < s.orders.length →
      ExecutingUnfinished s.tick (s.orders.getD k dflt) →
      (stepSim s).orders.getD k dflt = s.orders.getD k dflt) := by
  constructor
  · intro nm seed d1 d2 hd1
    refine ⟨?_, ?_, ?_, ?_, ?_⟩
    · rw [runSteps_simB_mid nm seed d1 d2 1 (Nat.le_refl 1) hd1]
      rfl
    · rw [runSteps_simB_mid nm seed d1 d2 1 (Nat.le_refl 1) hd1]
      rfl
    · intro T hT
      by_cases h0 : T = 0
      · subst h0
        exact ⟨rfl, rfl⟩
      · rw [runSteps_simB_mid nm seed d1 d2 T (by omega) hT]
        exact ⟨rfl, rfl⟩
    · rw [runSteps_simB_done nm seed d1 d2 hd1]
      rfl
    · rw [runSteps_simB_done nm seed d1 d2 hd1]
      rfl
  · intro s k dflt hk h
    exact (stepSim_no_preemption s k dflt hk h).2

/-- A concrete naming of the scenario, for instantiation. -/
def namesEx : ScenarioNames :=
  { siteId := "s1", siteName := "hub", kitchenId := "k1",
    kitchenName := "main", stationId := "st1", stationName := "bench",
    stationType := "w", brandId := "b1", brandName := "solo",
    itemId := "ib", itemName := "dish", step1 := "only", step2 := "next",
    step3 := "last", outLoc := "out" }

/-- Concrete application of the FIFO/no-preemption theorem: durations 2
and 3, and one tick of the mid-run state leaving the executing Order 1
untouched. -/
theorem fifo_admission_and_no_preemption_witness :
    ((runSteps 1 (simB namesEx 0 2 3)).orders.getD 0
        (orderB1 namesEx 2)).grantTick = some 0 ∧
    (stepSim (simBmid namesEx 0 2 3 1)).orders.getD 0 (orderB1 namesEx 2) =
      (simBmid namesEx 0 2 3 1).orders.getD 0 (orderB1 namesEx 2) :=
  ⟨(fifo_admission_and_no_preemption.1 namesEx 0 2 3 (by decide)).1,
   fifo_admission_and_no_preemption.2 (simBmid namesEx 0 2 3 1) 0
     (orderB1 namesEx 2) (by decide)
     ⟨0, 0,
      { step := "only", description := "", required_station := "w",
        expected_duration := 2 },
      rfl, rfl, rfl, by decide⟩⟩

end ClaimC4

section ClaimC3

/-- A tick of a quiet single-order World State whose order is executing
an unfinished instruction only advances the clock. -/
theorem stepSolo_idle (s : Sim) (o : OrderRec)
    (hp : s.params = quietParams) (ho : s.orders = [o])
    (h : ExecutingUnfinished s.tick o) :
    stepSim s = { s with tick := s.tick + 1 } := by
  obtain ⟨i, g, ins, hs, hg, hins, hlt⟩ := h
  have hsp : spawnPhase s.cfg s.params s.seed s.tick s.nextId =
      ([], s.nextId, []) := by
    rw [hp]
    simp [spawnPhase, spawnCount, quietParams]
  have hco : completePhase s.tick s.orders = (s.orders, []) := by
    rw [ho]
    simp [completePhase,
      completeOne_unfinished s.tick o ⟨i, g, ins, hs, hg, hins, hlt⟩]
  have hreq : requestedStep s.tick o = none :=
    requestedStep_executing s.tick o i g hs hg
  have hgr : grantPhase s.cfg.setup s.tick s.orders = (s.orders, []) := by
    rw [ho]
    unfold grantPhase
    simp [List.filter, hreq, sortFifo, grantLoop]
  have hdl : deliveryPhase s.params s.seed s.tick s.orders =
      (s.orders, []) := by
    rw [ho]
    simp [deliveryPhase, deliverOne_inPreparation s.params s.seed s.tick o i hs]
  have hsw : snapWrites s s.tick = s.writes := by
    simp [snapWrites, hp, quietParams]
  unfold stepSim
  simp only [hsp, List.append_nil, hco, hgr, hdl, hsw]

/-- Several ticks of a quiet single-order World State whose order stays
within its instruction's expected duration only advance the clock. -/
theorem runSteps_solo_idle (n : Nat) :
    ∀ (s : Sim) (o : OrderRec),
      s.params = quietParams → s.orders = [o] →
      (∀ k, k < n → ExecutingUnfinished (s.tick + k) o) →
      runSteps n s = { s with tick := s.tick + n } := by
  induction n with
  | zero =>
    intro s o _ _ _
    show s = { s with tick := s.tick + 0 }
    rfl
  | succ n ih =>
    intro s o hp ho h
    have h0 : ExecutingUnfinished s.tick o := by
      have := h 0 (by omega)
      simpa using this
    have hstep := stepSolo_idle s o hp ho h0
    calc runSteps (n + 1) s = runSteps n (stepSim s) := rfl
    _ = runSteps n { s with tick := s.tick + 1 } := by rw [hstep]
    _ = { s with tick := s.tick + 1 + n } := by
        refine ih _ o hp ho ?_
        intro k hk
        have := h (k + 1) (by omega)
        show ExecutingUnfinished (s.tick + 1 + k) o
        have harith : s.tick + 1 + k = s.tick + (k + 1) := by omega
        rw [harith]
        exact this
    _ = { s with tick := s.tick + (n + 1) } := by
        have harith : s.tick + 1 + n = s.tick + (n + 1) := by omega
        rw [harith]

/-- Splitting a run. -/
theorem runSteps_add (m n : Nat) :
    ∀ s : Sim, runSteps (m + n) s = runSteps n (runSteps m s) := by
  induction m with
  | zero =>
    intro s
    rw [Nat.zero_add]
    rfl
  | succ m ih =>
    intro s
    have harith : m + 1 + n = (m + n) + 1 := by omega
    rw [harith]
    calc runSteps ((m + n) + 1) s = runSteps (m + n) (stepSim s) := rfl
    _ = runSteps n (runSteps m (stepSim s)) := ih (stepSim s)
    _ = runSteps n (runSteps (m + 1) s) := rfl


/-- The single Scenario A order, created at tick 0, before any grant. -/
def queuedA (nm : ScenarioNames) : OrderRec :=
  { id := 0, creationTick := 0, kitchenId := nm.kitchenId, item := itemA nm,
    distance := 0, state := OrderState.queued, grantTick := none,
    currentStation := none, eta := none }

/-- The Scenario A order while executing step `i`, granted at `g`. -/
def execA (nm : ScenarioNames) (i g : Nat) : OrderRec :=
  { (queuedA nm) with
    state := OrderState.inPreparation i
    grantTick := some g
    currentStation := some nm.stationId }

/-- The Scenario A order once all three instructions completed. -/
def readyA (nm : ScenarioNames) : OrderRec :=
  { (queuedA nm) with state := OrderState.ready }

/-- Scenario A World State at tick `T` with the given single order and
accumulated events. -/
def simAat (nm : ScenarioNames) (seed T : Nat) (o : OrderRec)
    (E : List Event) : Sim :=
  { cfg := cfgA nm, params := quietParams, seed := seed,
    outputLocation := nm.outLoc, tick := T, nextId := 1, orders := [o],
    events := E, writes := [] }

/-- Tick 0 of Scenario A: the queued order's first instruction is
granted immediately. -/
theorem stepA_grant0 (nm : ScenarioNames) (seed : Nat) (E : List Event) :
    stepSim (simAat nm seed 0 (queuedA nm) E) =
      simAat nm seed 1 (execA nm 0 0)
        (E ++ [{ type := "station.granted", tick := 0, subject := 0,
                 payload := nm.step1 }]) := by
  have hspawn : spawnPhase (cfgA nm) quietParams seed 0 1 =
      ([], 1, []) := by
    simp [spawnPhase, spawnCount, quietParams]
  have hcomp : completePhase 0 [queuedA nm] = ([queuedA nm], []) := by
    simp [completePhase, completeOne, queuedA]
  have hgrant : grantPhase (setupA nm) 0 [queuedA nm] =
      ([execA nm 0 0],
       [{ type := "station.granted", tick := 0, subject := 0,
          payload := nm.step1 }]) := by
    unfold grantPhase
    rw [show List.filter (fun o => (requestedStep 0 o).isSome)
        [queuedA nm] = [queuedA nm] by
      simp [List.filter, requestedStep, queuedA]]
    simp [sortFifo, insertFifo, grantLoop, grantOne, requestedStep,
      findFreeStation, stationsOfKitchen, stationsOf, kitchenSetups,
      setupA, occupiedCount, updateFirst, queuedA, execA, itemA,
      instructionsA]
  have hdel : deliveryPhase quietParams seed 0 [execA nm 0 0] =
      ([execA nm 0 0], []) := by
    simp [deliveryPhase, deliverOne, execA, queuedA]
  show stepSim (simAat nm seed 0 (queuedA nm) E) = _
  unfold stepSim
  simp only [simAat, hspawn, List.append_nil, hcomp]
  rw [show (cfgA nm).setup = setupA nm from rfl]
  simp only [hgrant, hdel]
  simp [snapWrites, quietParams, simAat]

/-- Step 0 of Scenario A ends: at elapsed 2 the slot is released and
step 1 is granted in the same tick. -/
theorem stepA_next0 (nm : ScenarioNames) (seed g : Nat) (E : List Event) :
    stepSim (simAat nm seed (g + 2) (execA nm 0 g) E) =
      simAat nm seed (g + 3) (execA nm 1 (g + 2))
        (E ++ [{ type := "step.completed", tick := g + 2, subject := 0,
                 payload := nm.step1 },
               { type := "station.granted", tick := g + 2, subject := 0,
                 payload := nm.step2 }]) := by
  have hspawn : spawnPhase (cfgA nm) quietParams seed (g + 2) 1 =
      ([], 1, []) := by
    simp [spawnPhase, spawnCount, quietParams]
  have hcomp : completePhase (g + 2) [execA nm 0 g] =
      ([{ (queuedA nm) with state := OrderState.inPreparation 1 }],
       [{ type := "step.completed", tick := g + 2, subject := 0,
          payload := nm.step1 }]) := by
    simp [completePhase, completeOne, execA, queuedA, itemA,
      instructionsA]
  have hgrant : grantPhase (setupA nm) (g + 2)
      [{ (queuedA nm) with state := OrderState.inPreparation 1 }] =
      ([execA nm 1 (g + 2)],
       [{ type := "station.granted", tick := g + 2, subject := 0,
          payload := nm.step2 }]) := by
    unfold grantPhase
    rw [show List.filter (fun o => (requestedStep (g + 2) o).isSome)
        [{ (queuedA nm) with state := OrderState.inPreparation 1 }] =
        [{ (queuedA nm) with state := OrderState.inPreparation 1 }] by
      simp [List.filter, requestedStep, queuedA]]
    simp [sortFifo, insertFifo, grantLoop, grantOne, requestedStep,
      findFreeStation, stationsOfKitchen, stationsOf, kitchenSetups,
      setupA, occupiedCount, updateFirst, queuedA, execA, itemA,
      instructionsA]
  have hdel : deliveryPhase quietParams seed (g + 2)
      [execA nm 1 (g + 2)] = ([execA nm 1 (g + 2)], []) := by
    simp [deliveryPhase, deliverOne, execA, queuedA]
  show stepSim (simAat nm seed (g + 2) (execA nm 0 g) E) = _
  unfold stepSim
  simp only [simAat, hspawn, List.append_nil, hcomp]
  rw [show (cfgA nm).setup = setupA nm from rfl]
  simp only [hgrant, hdel]
  simp [snapWrites, quietParams, simAat]

/-- Step 1 of Scenario A ends: at elapsed 10 the slot is released and
step 2 is granted in the same tick. -/
theorem stepA_next1 (nm : ScenarioNames) (seed g : Nat) (E : List Event) :
    stepSim (simAat nm seed (g + 10) (execA nm 1 g) E) =
      simAat nm seed (g + 11) (execA nm 2 (g + 10))
        (E ++ [{ type := "step.completed", tick := g + 10, subject := 0,
                 payload := nm.step2 },
               { type := "station.granted", tick := g + 10, subject := 0,
                 payload := nm.step3 }]) := by
  have hspawn : spawnPhase (cfgA nm) quietParams seed (g + 10) 1 =
      ([], 1, []) := by
    simp [spawnPhase, spawnCount, quietParams]
  have hcomp : completePhase (g + 10) [execA nm 1 g] =
      ([{ (queuedA nm) with state := OrderState.inPreparation 2 }],
       [{ type := "step.completed", tick := g + 10, subject := 0,
          payload := nm.step2 }]) := by
    simp [completePhase, completeOne, execA, queuedA, itemA,
      instructionsA]
  have hgrant : grantPhase (setupA nm) (g + 10)
      [{ (queuedA nm) with state := OrderState.inPreparation 2 }] =
      ([execA nm 2 (g + 10)],
       [{ type := "station.granted", tick := g + 10, subject := 0,
          payload := nm.step3 }]) := by
    unfold grantPhase
    rw [show List.filter (fun o => (requestedStep (g + 10) o).isSome)
        [{ (queuedA nm) with state := OrderState.inPreparation 2 }] =
        [{ (queuedA nm) with state := OrderState.inPreparation 2 }] by
      simp [List.filter, requestedStep, queuedA]]
    simp [sortFifo, insertFifo, grantLoop, grantOne, requestedStep,
      findFreeStation, stationsOfKitchen, stationsOf, kitchenSetups,
      setupA, occupiedCount, updateFirst, queuedA, execA, itemA,
      instructionsA]
  have hdel : deliveryPhase quietParams seed (g + 10)
      [execA nm 2 (g + 10)] = ([execA nm 2 (g + 10)], []) := by
    simp [deliveryPhase, deliverOne, execA, queuedA]
  show stepSim (simAat nm seed (g + 10) (execA nm 1 g) E) = _
  unfold stepSim
  simp only [simAat, hspawn, List.append_nil, hcomp]
  rw [show (cfgA nm).setup = setupA nm from rfl]
  simp only [hgrant, hdel]
  simp [snapWrites, quietParams, simAat]

/-- Step 2 of Scenario A ends: at elapsed 2 the last instruction
completes and the order becomes Ready. -/
theorem stepA_final (nm : ScenarioNames) (seed g : Nat) (E : List Event) :
    stepSim (simAat nm seed (g + 2) (execA nm 2 g) E) =
      simAat nm seed (g + 3) (readyA nm)
        (E ++ [{ type := "step.completed", tick := g + 2, subject := 0,
                 payload := nm.step3 },
               { type := "order.ready", tick := g + 2, subject := 0,
                 payload := "" }]) := by
  have hspawn : spawnPhase (cfgA nm) quietParams seed (g + 2) 1 =
      ([], 1, []) := by
    simp [spawnPhase, spawnCount, quietParams]
  have hcomp : completePhase (g + 2) [execA nm 2 g] =
      ([readyA nm],
       [{ type := "step.completed", tick := g + 2, subject := 0,
          payload := nm.step3 },
        { type := "order.ready", tick := g + 2, subject := 0,
          payload := "" }]) := by
    simp [completePhase, completeOne, execA, queuedA, readyA, itemA,
      instructionsA]
  have hgrant : grantPhase (setupA nm) (g + 2) [readyA nm] =
      ([readyA nm], []) := by
    unfold grantPhase
    rw [show List.filter (fun o => (requestedStep (g + 2) o).isSome)
        [readyA nm] = [] by
      simp [List.filter, requestedStep, readyA, queuedA]]
    simp [sortFifo, grantLoop]
  have hdel : deliveryPhase quietParams seed (g + 2) [readyA nm] =
      ([readyA nm], []) := by
    simp [deliveryPhase, deliverOne, readyA, queuedA, quietParams]
  show stepSim (simAat nm seed (g + 2) (execA nm 2 g) E) = _
  unfold stepSim
  simp only [simAat, hspawn, List.append_nil, hcomp]
  rw [show (cfgA nm).setup = setupA nm from rfl]
  simp only [hgrant, hdel]
  simp [snapWrites, quietParams, simAat]

/-- C3: for every setup of the Scenario A shape — one kitchen, one
station of capacity 1, a single order whose recipe has exactly three
instructions of expected durations 2, 10 and 2 ticks — under any naming
and any seed, with no contention: the first instruction is granted at
tick 0; each `InPreparation(i) → InPreparation(i+1)` transition happens
exactly when the running instruction's elapsed ticks since its grant
reach its expected duration (ticks 2 and 12, the freed slot being
re-granted the same tick); and the order becomes `Ready` at tick 14 —
exactly 2+10+2 ticks after the first grant — and not earlier. -/
theorem scenarioA_ready_at_14 (nm : ScenarioNames) (seed : Nat) :
    ((runSteps 1 (simAat nm seed 0 (queuedA nm) [])).orders.getD 0
        (queuedA nm)).state = OrderState.inPreparation 0 ∧
    ((runSteps 1 (simAat nm seed 0 (queuedA nm) [])).orders.getD 0
        (queuedA nm)).grantTick = some 0 ∧
    ((runSteps 2 (simAat nm seed 0 (queuedA nm) [])).orders.getD 0
        (queuedA nm)).state = OrderState.inPreparation 0 ∧
    ((runSteps 3 (simAat nm seed 0 (queuedA nm) [])).orders.getD 0
        (queuedA nm)).state = OrderState.inPreparation 1 ∧
    ((runSteps 3 (simAat nm seed 0 (queuedA nm) [])).orders.getD 0
        (queuedA nm)).grantTick = some 2 ∧
    ((runSteps 12 (simAat nm seed 0 (queuedA nm) [])).orders.getD 0
        (queuedA nm)).state = OrderState.inPreparation 1 ∧
    ((runSteps 13 (simAat nm seed 0 (queuedA nm) [])).orders.getD 0
        (queuedA nm)).state = OrderState.inPreparation 2 ∧
    ((runSteps 13 (simAat nm seed 0 (queuedA nm) [])).orders.getD 0
        (queuedA nm)).grantTick = some 12 ∧
    ((runSteps 14 (simAat nm seed 0 (queuedA nm) [])).orders.getD 0
        (queuedA nm)).state = OrderState.inPreparation 2 ∧
    ((runSteps 15 (simAat nm seed 0 (queuedA nm) [])).orders.getD 0
        (queuedA nm)).state = OrderState.ready := by
  have h1 : ∃ E, runSteps 1 (simAat nm seed 0 (queuedA nm) []) =
      simAat nm seed 1 (execA nm 0 0) E :=
    ⟨_, stepA_grant0 nm seed []⟩
  have h2 : ∃ E, runSteps 2 (simAat nm seed 0 (queuedA nm) []) =
      simAat nm seed 2 (execA nm 0 0) E := by
    rcases h1 with ⟨E, hE⟩
    refine ⟨E, ?_⟩
    have hsplit : runSteps 2 (simAat nm seed 0 (queuedA nm) []) =
        runSteps 1 (runSteps 1 (simAat nm seed 0 (queuedA nm) [])) :=
      runSteps_add 1 1 _
    rw [hsplit, hE]
    exact runSteps_solo_idle 1 (simAat nm seed 1 (execA nm 0 0) E)
      (execA nm 0 0) rfl rfl
      (fun k hk => ⟨0, 0,
        { step := nm.step1, description := "",
          required_station := nm.stationType, expected_duration := 2 },
        rfl, rfl, rfl, by show 1 + k < 0 + 2; omega⟩)
  have h3 : ∃ E, runSteps 3 (simAat nm seed 0 (queuedA nm) []) =
      simAat nm seed 3 (execA nm 1 2) E := by
    rcases h2 with ⟨E, hE⟩
    refine ⟨E ++ [{ type := "step.completed", tick := 2, subject := 0,
                    payload := nm.step1 },
                  { type := "station.granted", tick := 2, subject := 0,
                    payload := nm.step2 }], ?_⟩
    have hsplit : runSteps 3 (simAat nm seed 0 (queuedA nm) []) =
        runSteps 1 (runSteps 2 (simAat nm seed 0 (queuedA nm) [])) :=
      runSteps_add 2 1 _
    rw [hsplit, hE]
    exact stepA_next0 nm seed 0 E
  have h12 : ∃ E, runSteps 12 (simAat nm seed 0 (queuedA nm) []) =
      simAat nm seed 12 (execA nm 1 2) E := by
    rcases h3 with ⟨E, hE⟩
    refine ⟨E, ?_⟩
    have hsplit : runSteps 12 (simAat nm seed 0 (queuedA nm) []) =
        runSteps 9 (runSteps 3 (simAat nm seed 0 (queuedA nm) [])) :=
      runSteps_add 3 9 _
    rw [hsplit, hE]
    exact runSteps_solo_idle 9 (simAat nm seed 3 (execA nm 1 2) E)
      (execA nm 1 2) rfl rfl
      (fun k hk => ⟨1, 2,
        { step := nm.step2, description := "",
          required_station := nm.stationType, expected_duration := 10 },
        rfl, rfl, rfl, by show 3 + k < 2 + 10; omega⟩)
  have h13 : ∃ E, runSteps 13 (simAat nm seed 0 (queuedA nm) []) =
      simAat nm seed 13 (execA nm 2 12) E := by
    rcases h12 with ⟨E, hE⟩
    refine ⟨E ++ [{ type := "step.completed", tick := 12, subject := 0,
                    payload := nm.step2 },
                  { type := "station.granted", tick := 12, subject := 0,
                    payload := nm.step3 }], ?_⟩
    have hsplit : runSteps 13 (simAat nm seed 0 (queuedA nm) []) =
        runSteps 1 (runSteps 12 (simAat nm seed 0 (queuedA nm) [])) :=
      runSteps_add 12 1 _
    rw [hsplit, hE]
    exact stepA_next1 nm seed 2 E
  have h14 : ∃ E, runSteps 14 (simAat nm seed 0 (queuedA nm) []) =
      simAat nm seed 14 (execA nm 2 12) E := by
    rcases h13 with ⟨E, hE⟩
    refine ⟨E, ?_⟩
    have hsplit : runSteps 14 (simAat nm seed 0 (queuedA nm) []) =
        runSteps 1 (runSteps 13 (simAat nm seed 0 (queuedA nm) [])) :=
      runSteps_add 13 1 _
    rw [hsplit, hE]
    exact runSteps_solo_idle 1 (simAat nm seed 13 (execA nm 2 12) E)
      (execA nm 2 12) rfl rfl
      (fun k hk => ⟨2, 12,
        { step := nm.step3, description := "",
          required_station := nm.stationType, expected_duration := 2 },
        rfl, rfl, rfl, by show 13 + k < 12 + 2; omega⟩)
  have h15 : ∃ E, runSteps 15 (simAat nm seed 0 (queuedA nm) []) =
      simAat nm seed 15 (readyA nm) E := by
    rcases h14 with ⟨E, hE⟩
    refine ⟨E ++ [{ type := "step.completed", tick := 14, subject := 0,
                    payload := nm.step3 },
                  { type := "order.ready", tick := 14, subject := 0,
                    payload := "" }], ?_⟩
    have hsplit : runSteps 15 (simAat nm seed 0 (queuedA nm) []) =
        runSteps 1 (runSteps 14 (simAat nm seed 0 (queuedA nm) [])) :=
      runSteps_add 14 1 _
    rw [hsplit, hE]
    exact stepA_final nm seed 12 E
  rcases h1 with ⟨E1, hE1⟩
  rcases h2 with ⟨E2, hE2⟩
  rcases h3 with ⟨E3, hE3⟩
  rcases h12 with ⟨E12, hE12⟩
  rcases h13 with ⟨E13, hE13⟩
  rcases h14 with ⟨E14, hE14⟩
  rcases h15 with ⟨E15, hE15⟩
  rw [hE1, hE2, hE3, hE12, hE13, hE14, hE15]
  exact ⟨rfl, rfl, rfl, rfl, rfl, rfl, rfl, rfl, rfl, rfl⟩

end ClaimC3

end Caspers
